import Mathlib

/-!
Verification development for the FX-Copier-machine trade copier.

The Python sources under src/ are shallowly embedded below.  Prices,
volumes, balances and timestamps are modelled as rational numbers
(the idealisation of the float arithmetic of the source), tickets as
natural numbers, and the MetaTrader enumeration constants as integers
with their real MT5 values.  Fallible steps return Option or Except,
and Python keyword-argument binding is modelled explicitly where a
call site and a signature disagree.  Each stateful method of the
reconciliation engine becomes a function from the copier state and a
broker snapshot to a new state together with a trace of broker
actions (order submissions and state-file saves).
-/

namespace FXCopier

/-! ## MetaTrader 5 constants (values of the real library) -/

def ORDER_TYPE_BUY : ℤ := 0
def ORDER_TYPE_SELL : ℤ := 1
def ORDER_TYPE_BUY_LIMIT : ℤ := 2
def ORDER_TYPE_SELL_LIMIT : ℤ := 3
def ORDER_TYPE_BUY_STOP : ℤ := 4
def ORDER_TYPE_SELL_STOP : ℤ := 5
def ORDER_TYPE_BUY_STOP_LIMIT : ℤ := 6
def ORDER_TYPE_SELL_STOP_LIMIT : ℤ := 7
def POSITION_TYPE_BUY : ℤ := 0
def POSITION_TYPE_SELL : ℤ := 1
def TRADE_ACTION_DEAL : ℤ := 1
def TRADE_ACTION_PENDING : ℤ := 5
def TRADE_ACTION_MODIFY : ℤ := 7
def TRADE_ACTION_REMOVE : ℤ := 8
def TRADE_ACTION_CLOSE_BY : ℤ := 10
def TRADE_RETCODE_DONE : ℤ := 10009
def TRADE_RETCODE_INVALID_PRICE : ℤ := 10015

/-! ## Python rounding

Python round() uses round-half-to-even (banker rounding); round(x, n)
rounds to n decimal digits.  We model it exactly on rationals. -/

/-- Python round() to the nearest integer, ties to even. -/
def pyRoundInt (x : ℚ) : ℤ :=
  let f := ⌊x⌋
  let r := x - (f : ℚ)
  if r < 1/2 then f
  else if 1/2 < r then f + 1
  else if f % 2 = 0 then f else f + 1

/-- Python round(x, nd) for nd decimal digits. -/
def pyRoundTo (x : ℚ) (nd : ℕ) : ℚ :=
  (pyRoundInt (x * (10 : ℚ) ^ nd) : ℚ) / (10 : ℚ) ^ nd

/-! ## utils.py -/

/-- Default minimum lot used when the broker gave no symbol data. -/
def DEFAULT_MIN_LOT : ℚ := 1/100
/-- Default maximum lot used when the broker gave no symbol data. -/
def DEFAULT_MAX_LOT : ℚ := 100
/-- Default volume step used when the broker gave no symbol data. -/
def DEFAULT_VOLUME_STEP : ℚ := 1/100

/-- utils.calculate_lot_size: derive the client lot from the donor lot,
the sizing mode and the balances, clamp into the effective bounds and
round to the volume step.  The donor balance is accepted but unused,
exactly as in the source. -/
def calculate_lot_size (donor_lot : ℚ) (mode : String) (value : Option ℚ)
    (donor_balance client_balance : ℚ)
    (symbol_min_lot symbol_max_lot symbol_volume_step : Option ℚ) : ℚ :=
  let _ := donor_balance
  let lot :=
    if mode = "fixed" then value.getD donor_lot
    else if mode = "proportion" then donor_lot * value.getD 1
    else if mode = "autolot" then (client_balance / 1000) * value.getD 1
    else donor_lot
  let effective_min_lot := symbol_min_lot.getD DEFAULT_MIN_LOT
  let effective_max_lot := symbol_max_lot.getD DEFAULT_MAX_LOT
  let effective_volume_step := symbol_volume_step.getD DEFAULT_VOLUME_STEP
  let lot := max effective_min_lot (min effective_max_lot lot)
  if 0 < effective_volume_step then
    let lot := (pyRoundInt (lot / effective_volume_step) : ℚ) * effective_volume_step
    max effective_min_lot (min effective_max_lot lot)
  else
    pyRoundTo lot 2

/-- utils.is_price_better_or_equal: dominance check of a limit price
against the original donor price with a tolerance of a tenth of a
point.  Any order kind other than the two limit kinds yields false. -/
def is_price_better_or_equal (order_type : ℤ) (our_price original_price point : ℚ) : Bool :=
  if order_type = ORDER_TYPE_BUY_LIMIT then
    decide (our_price ≤ original_price + point * (1/10))
  else if order_type = ORDER_TYPE_SELL_LIMIT then
    decide (our_price ≥ original_price - point * (1/10))
  else
    false

/-- utils.calculate_limit_price: price of a limit order, taken from the
market reference shifted by the offset, or the original price when the
original is closer to the market; rounded to the symbol digits.  The
symbol, point, bid and ask arguments are accepted but unused, exactly
as in the source. -/
def calculate_limit_price (order_type : ℤ) (market_price original_price offset : ℚ)
    (symbol : String) (digits : ℕ) (point : ℚ)
    (bid_price ask_price : Option ℚ) : ℚ :=
  let _ := symbol
  let _ := point
  let _ := bid_price
  let _ := ask_price
  let limit_price :=
    if order_type = ORDER_TYPE_BUY_LIMIT then
      let limit_price_from_market := market_price - offset
      if original_price > limit_price_from_market then original_price
      else limit_price_from_market
    else if order_type = ORDER_TYPE_SELL_LIMIT then
      let limit_price_from_market := market_price + offset
      if original_price < limit_price_from_market then original_price
      else limit_price_from_market
    else market_price
  pyRoundTo limit_price digits

/-- x is an integer multiple of step. -/
def IsMultipleOf (x step : ℚ) : Prop := ∃ k : ℤ, x = (k : ℚ) * step

/-! ## Python keyword-argument binding

utils.calculate_lot_size is called from order_manager.py with the
keyword arguments min_lot and max_lot, which are not parameters of its
signature; in Python such a call raises TypeError before the body of
the callee runs.  We model the binding check explicitly. -/

/-- Parameter names of utils.calculate_lot_size. -/
def calculate_lot_size_params : List String :=
  ["donor_lot", "mode", "value", "donor_balance", "client_balance",
   "symbol_min_lot", "symbol_max_lot", "symbol_volume_step"]

/-- Parameters of utils.calculate_lot_size without a default value. -/
def calculate_lot_size_required : List String :=
  ["donor_lot", "mode", "value", "donor_balance", "client_balance"]

/-- Keyword-argument names used at the three lot-sizing call sites in
order_manager.py (place_limit_order, place_pending_order and
place_market_order all use this exact list). -/
def lot_call_kwargs : List String :=
  ["donor_lot", "mode", "value", "min_lot", "max_lot",
   "donor_balance", "client_balance"]

/-- A Python keyword call binds when every keyword is a parameter name
and every parameter without a default receives an argument. -/
def pyKwargsBindOk (params required kwargs : List String) : Bool :=
  kwargs.all (fun k => params.contains k) &&
  required.all (fun k => kwargs.contains k)

/-- Python runtime errors relevant to this program. -/
inductive PyErr
  | typeError
  | nameError
deriving DecidableEq, Repr

/-- The lot-sizing call as written in order_manager.py: it binds the
keyword list lot_call_kwargs against the calculate_lot_size signature
and raises TypeError when a keyword does not match a parameter.  In the
counterfactual branch where the call would bind, the three symbol
parameters would be left at their defaults since the call never names
them. -/
def callCalculateLotSize (donor_lot : ℚ) (mode : String) (value : Option ℚ)
    (donor_balance client_balance : ℚ) : Except PyErr ℚ :=
  if pyKwargsBindOk calculate_lot_size_params calculate_lot_size_required lot_call_kwargs then
    .ok (calculate_lot_size donor_lot mode value donor_balance client_balance none none none)
  else .error .typeError

/-! ## Data model -/

/-- A bid/ask tick as returned by the gateway. -/
structure Tick where
  bid : ℚ
  ask : ℚ
  last : ℚ := 0
  volume : ℚ := 0
  time : ℚ := 0
deriving DecidableEq, Repr

/-- Symbol metadata as returned by the check_and_select_symbol worker
command. -/
structure SymbolData where
  digits : ℕ := 5
  point : ℚ := 1/100000
  trade_mode : ℤ := 0
  volume_min : ℚ := 1/100
  volume_max : ℚ := 100
  volume_step : ℚ := 1/100
deriving DecidableEq, Repr

/-- position_monitor.PositionInfo.  The field named type in Python is
ptype here. -/
structure PositionInfo where
  ticket : ℕ
  symbol : String
  ptype : ℤ
  volume : ℚ
  price_open : ℚ
  price_current : ℚ := 0
  profit : ℚ := 0
  time : ℚ := 0
  magic : Option ℤ := none
  comment : Option String := none
  sl : Option ℚ := none
  tp : Option ℚ := none
deriving DecidableEq, Repr

/-- A pending client order as returned by the gateway.  The field
named type in Python is otype here. -/
structure OrderData where
  ticket : ℕ
  symbol : String
  otype : ℤ
  price_open : ℚ
  position_id : Option ℕ := none
  time_setup : ℚ := 0
deriving DecidableEq, Repr

/-- A donor pending order as supplied by the donor aggregator. -/
structure DonorOrder where
  ticket : ℕ
  symbol : String
  otype : ℤ
  volume : ℚ
  price_open : ℚ
  time : ℚ := 0
  sl : Option ℚ := none
  tp : Option ℚ := none
deriving DecidableEq, Repr

/-- A trade request dictionary sent to the client gateway.  The field
named type in Python is rtype here. -/
structure TradeRequest where
  action : ℤ
  symbol : String := ""
  volume : ℚ := 0
  rtype : ℤ := 0
  price : ℚ := 0
  deviation : ℤ := 20
  magic : ℤ := 0
  comment : String := ""
  sl : Option ℚ := none
  tp : Option ℚ := none
  order : Option ℕ := none
  position : Option ℕ := none
  position_by : Option ℕ := none
deriving DecidableEq, Repr

/-- Result of a gateway order submission. -/
structure SubmitResult where
  retcode : ℤ
  order : Option ℕ := none
  deal : Option ℕ := none
  comment : String := ""
deriving DecidableEq, Repr

/-- Externally visible effects of the engine: a request placed through
the client gateway, or a write of the persisted state file. -/
inductive Action
  | submit (req : TradeRequest)
  | save
deriving DecidableEq, Repr

/-- A trading action is a gateway request (submission, cancellation or
modification); a state-file save is not. -/
def Action.isTradeAction : Action → Bool
  | .submit _ => true
  | .save => false

abbrev Act := List Action

/-- The broker and donor state visible during one reconciliation
cycle.  Queries are read-only lookups into this snapshot; order
submissions are answered by the submit oracle. -/
structure Broker where
  donorPositions : List PositionInfo := []
  clientPositions : List PositionInfo := []
  clientOrders : List OrderData := []
  donorOrders : List DonorOrder := []
  symbolCheck : String → Option SymbolData := fun _ => none
  tick : String → Option Tick := fun _ => none
  submit : TradeRequest → Option SubmitResult := fun _ => none
  accountBalance : ℚ := 0
  nowTime : ℚ := 0

/-- terminal_manager.get_client_order_by_ticket against the snapshot. -/
def getClientOrderByTicket (b : Broker) (t : ℕ) : Option OrderData :=
  b.clientOrders.find? (fun o => o.ticket == t)

/-- terminal_manager.get_client_position_by_ticket against the snapshot. -/
def getClientPositionByTicket (b : Broker) (t : ℕ) : Option PositionInfo :=
  b.clientPositions.find? (fun p => p.ticket == t)

/-- terminal_worker get_position_by_symbol: the first client position
on the symbol (the magic filter of the worker is modelled as already
applied to the snapshot). -/
def getClientPositionBySymbol (b : Broker) (s : String) : Option PositionInfo :=
  b.clientPositions.find? (fun p => p.symbol == s)

/-- Python truthiness of an optional integer ticket: None and 0 are
falsy. -/
def truthyNat (o : Option ℕ) : Bool :=
  match o with
  | none => false
  | some n => n != 0

/-! ## config.py -/

/-- config.LotConfig. -/
structure LotConfig where
  mode : String
  value : Option ℚ := none
  min_lot : ℚ := 1/100
  max_lot : ℚ := 100
deriving DecidableEq, Repr

/-- config.OrderConfig. -/
structure OrderConfig where
  max_retries : ℕ := 10
  magic : ℤ := 234000
  optimize_to_market : Bool := false
  limit_offset_points : ℚ := 2
  copy_sl_tp : Bool := false
  copy_pending_orders : Bool := false
deriving DecidableEq, Repr

/-- The configuration reaching the engine: config.Config together with
the copy_donor_magic command-line flag of TradeCopier. -/
structure Config where
  lot_config : LotConfig
  order_config : OrderConfig
  copy_style : String := "by_limits"
  copy_donor_magic : Bool := false
deriving DecidableEq, Repr

/-! ## order_manager.py -/

/-- The sl/tp fields attached to a request: present only when SL/TP
copying is enabled and the value is set and positive. -/
def slTpField (enabled : Bool) (v : Option ℚ) : Option ℚ :=
  if enabled then
    match v with
    | some x => if 0 < x then some x else none
    | none => none
  else none

/-- The retry loop of OrderManager.place_limit_order (the for-loop over
max_retries attempts): compute the limit price at the current offset,
reject and widen the offset when the price is worse than the original,
otherwise submit; on a failed submission widen the offset and retry.
Returns the assigned ticket and the trace of submitted requests. -/
def placeLimitLoop (cfg : Config) (b : Broker) (symbol : String) (order_type : ℤ)
    (lot original_price market_price bid_price ask_price : ℚ)
    (digits : ℕ) (point : ℚ) (magic : Option ℤ) (sl tp : Option ℚ) :
    ℕ → ℚ → Option ℕ × Act
  | 0, _ => (none, [])
  | n + 1, current_offset =>
    let limit_price := calculate_limit_price order_type market_price original_price
      current_offset symbol digits point (some bid_price) (some ask_price)
    if ¬ is_price_better_or_equal order_type limit_price original_price point then
      placeLimitLoop cfg b symbol order_type lot original_price market_price bid_price
        ask_price digits point magic sl tp n (current_offset + point)
    else
      let req : TradeRequest :=
        { action := TRADE_ACTION_PENDING
          symbol := symbol
          volume := lot
          rtype := order_type
          price := limit_price
          deviation := 20
          magic := magic.getD cfg.order_config.magic
          comment := "Copied order"
          sl := slTpField cfg.order_config.copy_sl_tp sl
          tp := slTpField cfg.order_config.copy_sl_tp tp }
      match b.submit req with
      | none =>
        let rest := placeLimitLoop cfg b symbol order_type lot original_price market_price
          bid_price ask_price digits point magic sl tp n (current_offset + point)
        (rest.1, .submit req :: rest.2)
      | some result =>
        if result.retcode = TRADE_RETCODE_DONE then
          (result.order, [.submit req])
        else if result.retcode = TRADE_RETCODE_INVALID_PRICE then
          let rest := placeLimitLoop cfg b symbol order_type lot original_price market_price
            bid_price ask_price digits point magic sl tp n (current_offset + point)
          (rest.1, .submit req :: rest.2)
        else
          let rest := placeLimitLoop cfg b symbol order_type lot original_price market_price
            bid_price ask_price digits point magic sl tp n (current_offset + point)
          (rest.1, .submit req :: rest.2)

/-- OrderManager.place_limit_order: select the symbol, fetch a tick,
size the lot (which raises TypeError, see callCalculateLotSize), then
run the adaptive-offset retry loop. -/
def place_limit_order (cfg : Config) (b : Broker) (symbol : String) (order_type : ℤ)
    (volume original_price : ℚ) (donor_balance client_balance : Option ℚ)
    (magic : Option ℤ) (sl tp : Option ℚ) : Except PyErr (Option ℕ × Act) :=
  match b.symbolCheck symbol with
  | none => .ok (none, [])
  | some symbol_data =>
    match b.tick symbol with
    | none => .ok (none, [])
    | some t =>
      let bid_price := t.bid
      let ask_price := t.ask
      let market_price := if order_type = ORDER_TYPE_BUY_LIMIT then ask_price else bid_price
      let cb := client_balance.getD b.accountBalance
      let db := donor_balance.getD cb
      match callCalculateLotSize volume cfg.lot_config.mode cfg.lot_config.value db cb with
      | .error e => .error e
      | .ok lot =>
        let digits := symbol_data.digits
        let point := symbol_data.point
        let current_offset := cfg.order_config.limit_offset_points * point
        .ok (placeLimitLoop cfg b symbol order_type lot original_price market_price
          bid_price ask_price digits point magic sl tp
          cfg.order_config.max_retries current_offset)

/-- OrderManager.place_pending_order: select the symbol, size the lot
(TypeError), then submit a single pending request at the given price. -/
def place_pending_order (cfg : Config) (b : Broker) (symbol : String) (order_type : ℤ)
    (volume price : ℚ) (donor_balance client_balance : Option ℚ)
    (magic : Option ℤ) (sl tp : Option ℚ) : Except PyErr (Option ℕ × Act) :=
  match b.symbolCheck symbol with
  | none => .ok (none, [])
  | some _symbol_data =>
    let cb := client_balance.getD b.accountBalance
    let db := donor_balance.getD cb
    match callCalculateLotSize volume cfg.lot_config.mode cfg.lot_config.value db cb with
    | .error e => .error e
    | .ok lot =>
      let req : TradeRequest :=
        { action := TRADE_ACTION_PENDING
          symbol := symbol
          volume := lot
          rtype := order_type
          price := price
          deviation := 20
          magic := magic.getD cfg.order_config.magic
          comment := "Copied pending order"
          sl := slTpField cfg.order_config.copy_sl_tp sl
          tp := slTpField cfg.order_config.copy_sl_tp tp }
      match b.submit req with
      | none => .ok (none, [.submit req])
      | some result =>
        if result.retcode = TRADE_RETCODE_DONE then .ok (result.order, [.submit req])
        else .ok (none, [.submit req])

/-- OrderManager.place_market_order: select the symbol, fetch a tick,
size the lot (TypeError), then submit one market deal at ask or bid. -/
def place_market_order (cfg : Config) (b : Broker) (symbol : String) (order_type : ℤ)
    (volume : ℚ) (donor_balance client_balance : Option ℚ)
    (magic : Option ℤ) (sl tp : Option ℚ) : Except PyErr (Option ℕ × Act) :=
  match b.symbolCheck symbol with
  | none => .ok (none, [])
  | some _symbol_data =>
    match b.tick symbol with
    | none => .ok (none, [])
    | some t =>
      let cb := client_balance.getD b.accountBalance
      let db := donor_balance.getD cb
      match callCalculateLotSize volume cfg.lot_config.mode cfg.lot_config.value db cb with
      | .error e => .error e
      | .ok lot =>
        let price := if order_type = ORDER_TYPE_BUY then t.ask else t.bid
        let req : TradeRequest :=
          { action := TRADE_ACTION_DEAL
            symbol := symbol
            volume := lot
            rtype := order_type
            price := price
            deviation := 20
            magic := magic.getD cfg.order_config.magic
            comment := "Copied order (market)"
            sl := slTpField cfg.order_config.copy_sl_tp sl
            tp := slTpField cfg.order_config.copy_sl_tp tp }
        match b.submit req with
        | none => .ok (none, [.submit req])
        | some result =>
          if result.retcode = TRADE_RETCODE_DONE then .ok (result.deal, [.submit req])
          else .ok (none, [.submit req])

/-- OrderManager.close_position_by_market: submit one opposite market
deal tagged with the position ticket; true on retcode DONE. -/
def close_position_by_market (cfg : Config) (b : Broker) (position_ticket : ℕ)
    (symbol : String) (position_type : ℤ) (volume : ℚ) : Bool × Act :=
  match b.tick symbol with
  | none => (false, [])
  | some t =>
    let order_type := if position_type = POSITION_TYPE_BUY then ORDER_TYPE_SELL else ORDER_TYPE_BUY
    let price := if position_type = POSITION_TYPE_BUY then t.bid else t.ask
    let req : TradeRequest :=
      { action := TRADE_ACTION_DEAL
        position := some position_ticket
        symbol := symbol
        volume := volume
        rtype := order_type
        price := price
        deviation := 20
        magic := cfg.order_config.magic
        comment := "Close position (market)" }
    match b.submit req with
    | some result =>
      if result.retcode = TRADE_RETCODE_DONE then (true, [.submit req])
      else (false, [.submit req])
    | none => (false, [.submit req])

/-- OrderManager.close_position_by_opposite_order: place an opposite
limit order for the volume of the position at the original close
price. -/
def close_position_by_opposite_order (cfg : Config) (b : Broker) (symbol : String)
    (position_volume : ℚ) (position_type : ℤ) (original_close_price : ℚ)
    (client_ticket : ℕ) : Except PyErr (Option ℕ × Act) :=
  let _ := client_ticket
  let order_type :=
    if position_type = POSITION_TYPE_BUY then ORDER_TYPE_SELL_LIMIT else ORDER_TYPE_BUY_LIMIT
  place_limit_order cfg b symbol order_type position_volume original_close_price
    none none none none none

/-- OrderManager.close_position_by_opposite_position: one CLOSE_BY
request netting the original position against the opposite one. -/
def close_position_by_opposite_position (b : Broker)
    (original_position_ticket opposite_position_ticket : ℕ) : Bool × Act :=
  let req : TradeRequest :=
    { action := TRADE_ACTION_CLOSE_BY
      position := some original_position_ticket
      position_by := some opposite_position_ticket
      deviation := 20 }
  match b.submit req with
  | some result =>
    if result.retcode = TRADE_RETCODE_DONE then (true, [.submit req])
    else (false, [.submit req])
  | none => (false, [.submit req])

/-- OrderManager.cancel_order: one REMOVE request for the ticket. -/
def cancel_order (b : Broker) (order_ticket : ℕ) : Bool × Act :=
  let req : TradeRequest := { action := TRADE_ACTION_REMOVE, order := some order_ticket }
  match b.submit req with
  | some result =>
    if result.retcode = TRADE_RETCODE_DONE then (true, [.submit req])
    else (false, [.submit req])
  | none => (false, [.submit req])

/-- OrderManager.wait_for_order_fill against a static snapshot: the
order vanished and some client position exists. -/
def wait_for_order_fill (b : Broker) (order_ticket : ℕ) : Bool :=
  match getClientOrderByTicket b order_ticket with
  | none => decide (b.clientPositions ≠ [])
  | some _ => false

/-- OrderManager.get_position_by_symbol.  In the source the lookup
block sits inside the guard that the terminal manager is absent and
after that guard already returned None, so it is unreachable; the
method always falls through to its final return None. -/
def get_position_by_symbol (b : Broker) (symbol : String) : Option PositionInfo :=
  let _ := b
  let _ := symbol
  none

/-- The one-point step of the walker for a BUY_LIMIT order
(order_manager.py lines 638-655): move the price one point up; toward
the market only the strictly-closer-to-ask test applies (the terminal
decides admissibility); toward the original the candidate must not
exceed the original, must be strictly below the bid, and must be
strictly closer to the original. -/
def buyLimitOneStep (optimize_to_market : Bool)
    (current_price point ask_price bid_price original_price : ℚ) : Option ℚ :=
  let new_price := current_price + point
  if new_price > current_price then
    if optimize_to_market then
      if |new_price - ask_price| < |current_price - ask_price| then some new_price else none
    else
      if new_price ≤ original_price ∧ new_price < bid_price then
        if |new_price - original_price| < |current_price - original_price| then some new_price
        else none
      else none
  else none

/-- The one-point step of the walker for a SELL_LIMIT order
(order_manager.py lines 656-673), symmetric against bid and ask. -/
def sellLimitOneStep (optimize_to_market : Bool)
    (current_price point bid_price ask_price original_price : ℚ) : Option ℚ :=
  let new_price := current_price - point
  if new_price < current_price then
    if optimize_to_market then
      if |new_price - bid_price| < |current_price - bid_price| then some new_price else none
    else
      if new_price ≥ original_price ∧ new_price > ask_price then
        if |new_price - original_price| < |current_price - original_price| then some new_price
        else none
      else none
  else none

/-- The fallback of OrderManager.optimize_order_price when the
one-point step is not possible (lines 676-724): either the optimal
price toward the original at offset zero, or the capped price next to
the market, each accepted only under its stated conditions. -/
def optimizeOrderFallback (optimize_to_market : Bool) (order_type : ℤ)
    (current_price original_price market_price bid_price ask_price point : ℚ)
    (symbol : String) (digits : ℕ) : Option ℚ :=
  if ¬ optimize_to_market then
    let optimal_price := calculate_limit_price order_type market_price original_price 0
      symbol digits point (some bid_price) (some ask_price)
    if order_type = ORDER_TYPE_BUY_LIMIT then
      if optimal_price > current_price ∧ optimal_price ≤ original_price ∧
          optimal_price < bid_price then some optimal_price
      else none
    else
      if optimal_price < current_price ∧ optimal_price ≥ original_price ∧
          optimal_price > ask_price then some optimal_price
      else none
  else
    if order_type = ORDER_TYPE_BUY_LIMIT then
      let optimal_price := ask_price - point
      let optimal_price := if optimal_price > original_price then original_price else optimal_price
      let optimal_price := if optimal_price ≥ bid_price then bid_price - point else optimal_price
      if optimal_price > current_price ∧ optimal_price ≤ original_price ∧
          optimal_price < bid_price then some optimal_price
      else none
    else
      let optimal_price := bid_price + point
      let optimal_price := if optimal_price < original_price then original_price else optimal_price
      let optimal_price := if optimal_price ≤ ask_price then ask_price + point else optimal_price
      if optimal_price < current_price ∧ optimal_price ≥ original_price ∧
          optimal_price > ask_price then some optimal_price
      else none

/-- OrderManager.optimize_order_price: re-price a live opening limit
order one point toward its target, falling back to the direct optimal
price; when an improvement is found submit one MODIFY request (the
price is not rounded in this method). -/
def optimize_order_price (cfg : Config) (b : Broker) (order_ticket : ℕ)
    (symbol : String) (order_type : ℤ) (original_price : ℚ) : Bool × Act :=
  match getClientOrderByTicket b order_ticket with
  | none => (false, [])
  | some order_data =>
    let current_price := order_data.price_open
    if current_price = 0 then (false, [])
    else
      match b.tick symbol with
      | none => (false, [])
      | some t =>
        let bid_price := t.bid
        let ask_price := t.ask
        let market_price := if order_type = ORDER_TYPE_BUY_LIMIT then ask_price else bid_price
        match b.symbolCheck symbol with
        | none => (false, [])
        | some symbol_data =>
          let digits := symbol_data.digits
          let point := symbol_data.point
          let step :=
            if order_type = ORDER_TYPE_BUY_LIMIT then
              buyLimitOneStep cfg.order_config.optimize_to_market current_price point
                ask_price bid_price original_price
            else
              sellLimitOneStep cfg.order_config.optimize_to_market current_price point
                bid_price ask_price original_price
          let optimal :=
            match step with
            | some p => some p
            | none =>
              optimizeOrderFallback cfg.order_config.optimize_to_market order_type
                current_price original_price market_price bid_price ask_price point
                symbol digits
          match optimal with
          | none => (false, [])
          | some optimal_price =>
            let req : TradeRequest :=
              { action := TRADE_ACTION_MODIFY
                order := some order_ticket
                symbol := symbol
                price := optimal_price
                deviation := 20 }
            match b.submit req with
            | some result =>
              if result.retcode = TRADE_RETCODE_DONE then (true, [.submit req])
              else (false, [.submit req])
            | none => (false, [.submit req])

/-- OrderManager.optimize_close_order_price.  Mirrors the source
faithfully, including two slips of its fallback section: when the
one-point step succeeds, the else-branch on line 890 pairs with the
price_improved test on line 852 and overwrites the stepped price with
the SELL-side to-market fallback price; and in its to-market fallback
for a SELL_LIMIT order the price variable is read without ever being
assigned, raising NameError (UnboundLocalError). -/
def optimize_close_order_price (cfg : Config) (b : Broker) (order_ticket : ℕ)
    (symbol : String) (order_type : ℤ) (original_close_price : ℚ) :
    Except PyErr (Bool × Act) :=
  match getClientOrderByTicket b order_ticket with
  | none => .ok (false, [])
  | some order_data =>
    let current_price := order_data.price_open
    if current_price = 0 then .ok (false, [])
    else
      match b.tick symbol with
      | none => .ok (false, [])
      | some t =>
        let bid_price := t.bid
        let ask_price := t.ask
        match b.symbolCheck symbol with
        | none => .ok (false, [])
        | some symbol_data =>
          let digits := symbol_data.digits
          let point := symbol_data.point
          let step :=
            if order_type = ORDER_TYPE_BUY_LIMIT then
              buyLimitOneStep cfg.order_config.optimize_to_market current_price point
                ask_price bid_price original_close_price
            else
              sellLimitOneStep cfg.order_config.optimize_to_market current_price point
                bid_price ask_price original_close_price
          let outcome : Except PyErr (Option ℚ) :=
            match step with
            | none =>
              if ¬ cfg.order_config.optimize_to_market then
                let optimal_price := calculate_limit_price order_type
                  (if order_type = ORDER_TYPE_BUY_LIMIT then ask_price else bid_price)
                  original_close_price 0 symbol digits point (some bid_price) (some ask_price)
                if order_type = ORDER_TYPE_BUY_LIMIT then
                  if optimal_price > current_price ∧ optimal_price ≤ original_close_price ∧
                      optimal_price < bid_price then .ok (some optimal_price)
                  else .ok none
                else
                  if optimal_price < current_price ∧ optimal_price ≥ original_close_price ∧
                      optimal_price > ask_price then .ok (some optimal_price)
                  else .ok none
              else
                if order_type = ORDER_TYPE_BUY_LIMIT then
                  let optimal_price := ask_price - point
                  let optimal_price :=
                    if optimal_price > original_close_price then original_close_price
                    else optimal_price
                  let optimal_price :=
                    if optimal_price ≥ bid_price then bid_price - point else optimal_price
                  if optimal_price > current_price ∧ optimal_price ≤ original_close_price ∧
                      optimal_price < bid_price then .ok (some optimal_price)
                  else .ok none
                else
                  -- The to-market fallback assigns the price only in the
                  -- BUY_LIMIT branch; reading it here raises NameError.
                  .error .nameError
            | some _stepped =>
              -- The misindented else-branch (lines 890-901) runs after a
              -- successful step and overwrites the stepped price.
              let optimal_price := bid_price + point
              let optimal_price :=
                if optimal_price < original_close_price then original_close_price
                else optimal_price
              let optimal_price :=
                if optimal_price ≤ ask_price then ask_price + point else optimal_price
              .ok (some optimal_price)
          match outcome with
          | .error e => .error e
          | .ok none => .ok (false, [])
          | .ok (some optimal_price) =>
            let optimal_price := pyRoundTo optimal_price digits
            let req : TradeRequest :=
              { action := TRADE_ACTION_MODIFY
                order := some order_ticket
                symbol := symbol
                price := optimal_price
                deviation := 20 }
            match b.submit req with
            | some result =>
              if result.retcode = TRADE_RETCODE_DONE then .ok (true, [.submit req])
              else .ok (false, [.submit req])
            | none => .ok (false, [.submit req])

/-! ## terminal_worker.py and terminal_manager.py: symbol check -/

/-- The broker library responses seen by the check_and_select_symbol
worker command: the (discarded) result of symbol_select, the symbol
metadata, and the tick. -/
structure SymbolEnv where
  selectResult : Bool
  info : Option SymbolData
  tickResult : Option Tick
deriving DecidableEq, Repr

/-- The check_and_select_symbol branch of terminal_worker.client_worker:
symbol_select is called first but its result is discarded; a missing
symbol_info or a missing tick yields an error reply, otherwise the
metadata is returned. -/
def worker_symbol_check (e : SymbolEnv) : Except String SymbolData :=
  let _selected := e.selectResult
  match e.info with
  | none => .error "symbol not found"
  | some symbol_info =>
    match e.tickResult with
    | none => .error "no quotes"
    | some _tick => .ok symbol_info

/-- TerminalManager.check_and_select_client_symbol: forward the worker
reply, collapsing the error message to None. -/
def check_and_select_client_symbol (e : SymbolEnv) : Option SymbolData :=
  match worker_symbol_check e with
  | .ok d => some d
  | .error _ => none

/-! ## The position matcher scoring (main.py) -/

/-- The open-time proximity contribution of the matcher scoring
(identical in validate_and_merge_state and restore_sync_state). -/
def timeScore (time_diff : ℚ) : ℚ :=
  if time_diff ≤ 60 then 20 * (1 - min (time_diff / 60) 1)
  else if time_diff ≤ 300 then 15 * (1 - min ((time_diff - 60) / 240) 1)
  else if time_diff ≤ 3600 then 10 * (1 - min ((time_diff - 300) / 3300) 1)
  else if time_diff ≤ 86400 then 5 * (1 - min ((time_diff - 3600) / 82800) 1)
  else 0

/-- The magic-tag rule of the matcher scoring: under copy-donor-magic
a set donor magic must match exactly or the candidate is rejected
(none); otherwise two equal non-null magics add 15. -/
def magicScoreStep (copy_donor_magic : Bool) (client_pos donor_pos : PositionInfo)
    (score : ℚ) : Option ℚ :=
  if copy_donor_magic then
    match donor_pos.magic with
    | some dm => if client_pos.magic ≠ some dm then none else some (score + 30)
    | none => some score
  else
    match donor_pos.magic, client_pos.magic with
    | some dm, some cm => if cm = dm then some (score + 15) else some score
    | _, _ => some score

/-- The open-price rule of the matcher scoring: inside the tolerance a
linear bonus up to 10 is added; outside it a penalty up to 10 is
subtracted and the candidate is rejected when the score drops below
zero. -/
def priceScoreStep (symbol_info : Option SymbolData) (client_pos donor_pos : PositionInfo)
    (score : ℚ) : Option ℚ :=
  let price_diff := |client_pos.price_open - donor_pos.price_open|
  let max_price_diff :=
    match symbol_info with
    | some si => max (si.point * 100) (1/100)
    | none => (1/100 : ℚ)
  if price_diff ≤ max_price_diff then
    some (score + 10 * (1 - min (price_diff / max_price_diff) 1))
  else
    let score := score - 5 * min (price_diff / max_price_diff) 2
    if score < 0 then none else some score

/-- The per-candidate scoring of the position matcher: baseline of 20
for matching symbol and direction, the magic-tag rules, the open-time
proximity, the open-price proximity with its rejection rule, and the
saved-linkage bonus.  None models the continue statements that reject
the candidate.  The truthiness test on the two datetime fields of the
source is always true for datetime objects and is modelled as such. -/
def positionMatchScore (copy_donor_magic : Bool) (symbol_info : Option SymbolData)
    (client_pos donor_pos : PositionInfo) (saved_bonus : Bool) : Option ℚ :=
  if client_pos.symbol ≠ donor_pos.symbol ∨ client_pos.ptype ≠ donor_pos.ptype then none
  else
    match magicScoreStep copy_donor_magic client_pos donor_pos 20 with
    | none => none
    | some score =>
      let time_diff := |client_pos.time - donor_pos.time|
      let score := score + timeScore time_diff
      match priceScoreStep symbol_info client_pos donor_pos score with
      | none => none
      | some score => some (if saved_bonus then score + 10 else score)

/-! ## The correspondence map and the copier state (main.py)

Python dicts are modelled as association lists preserving insertion
order: assignment replaces in place or appends, deletion filters. -/

/-- Dict lookup. -/
def dictGet {β : Type} (d : List (ℕ × β)) (k : ℕ) : Option β :=
  (d.find? (fun kv => kv.1 == k)).map (fun kv => kv.2)

/-- Dict membership. -/
def dictHas {β : Type} (d : List (ℕ × β)) (k : ℕ) : Bool :=
  d.any (fun kv => kv.1 == k)

/-- Dict assignment with Python insertion-order semantics. -/
def dictSet {β : Type} (d : List (ℕ × β)) (k : ℕ) (v : β) : List (ℕ × β) :=
  if d.any (fun kv => kv.1 == k) then
    d.map (fun kv => if kv.1 == k then (k, v) else kv)
  else d ++ [(k, v)]

/-- Dict deletion. -/
def dictDel {β : Type} (d : List (ℕ × β)) (k : ℕ) : List (ℕ × β) :=
  d.filter (fun kv => kv.1 != k)

/-- Dict keys. -/
def dictKeys {β : Type} (d : List (ℕ × β)) : List ℕ := d.map (fun kv => kv.1)

/-- Dict values. -/
def dictValues {β : Type} (d : List (ℕ × β)) : List β := d.map (fun kv => kv.2)

/-- dict.update: assign every pair of the second dict into the first. -/
def dictUpdate {β : Type} (d upd : List (ℕ × β)) : List (ℕ × β) :=
  upd.foldl (fun acc kv => dictSet acc kv.1 kv.2) d

/-- The value stored in pending_orders for an opening limit order. -/
structure PendingInfo where
  donor_ticket : ℕ
  symbol : String
  order_type : ℤ
  original_price : ℚ
  position_id : Option ℕ := none
  time_setup : Option ℚ := none
deriving DecidableEq, Repr

/-- The value stored in pending_close_orders_info for a closing limit
order. -/
structure CloseInfo where
  donor_ticket : ℕ
  symbol : String
  order_type : ℤ
  original_close_price : ℚ
  client_ticket : ℕ
deriving DecidableEq, Repr

/-- The mutable state of TradeCopier together with the state of its
PositionMonitor. -/
structure CopierState where
  client_positions : List (ℕ × ℕ) := []
  pending_orders : List (ℕ × PendingInfo) := []
  pending_close_orders : List (ℕ × ℕ) := []
  pending_close_orders_info : List (ℕ × CloseInfo) := []
  close_order_to_client_position : List (ℕ × ℕ) := []
  donor_pending_orders : List (ℕ × ℕ) := []
  skipped_symbols : List String := []
  donor_balance : ℚ := 0
  client_balance : ℚ := 0
  tracked : List ℕ := []
  donor_states : List (ℕ × PositionInfo) := []
  client_states : List (ℕ × PositionInfo) := []
  copied : List (ℕ × ℕ) := []
deriving DecidableEq, Repr

/-- The persisted state file after load_sync_state converted its keys
back to integers; the rich per-link metadata is reduced to the client
ticket at load, exactly as in the source. -/
structure SavedState where
  client_positions : List (ℕ × ℕ) := []
  pending_orders : List (ℕ × PendingInfo) := []
  pending_close_orders : List (ℕ × ℕ) := []
  pending_close_orders_info : List (ℕ × CloseInfo) := []
  close_order_to_client_position : List (ℕ × ℕ) := []
  donor_pending_orders : List (ℕ × ℕ) := []
deriving DecidableEq, Repr

/-- TradeCopier.save_sync_state: serialize the map to the state file.
Only the externally visible write matters to the embedding. -/
def save_sync_state : Act := [Action.save]

/-- The result of one phase of the loop: the new state and its trace,
or a propagated Python exception. -/
abbrev PhaseResult := Except PyErr (CopierState × Act)

/-- Sequence two phase computations, concatenating traces. -/
def pseq (r : PhaseResult) (f : CopierState → PhaseResult) : PhaseResult :=
  match r with
  | .error e => .error e
  | .ok (st, as) =>
    match f st with
    | .error e => .error e
    | .ok (st2, as2) => .ok (st2, as ++ as2)

/-- Fold a phase body over a work list, threading state and traces. -/
def foldPhase {α : Type} (f : α → CopierState → PhaseResult) :
    List α → CopierState → PhaseResult
  | [], st => .ok (st, [])
  | x :: xs, st =>
    match f x st with
    | .error e => .error e
    | .ok (st1, a1) =>
      match foldPhase f xs st1 with
      | .error e => .error e
      | .ok (st2, a2) => .ok (st2, a1 ++ a2)

/-! ## TradeCopier.process_new_positions -/

/-- The body of the loop of TradeCopier.process_new_positions for one
new donor position: skip negatively cached symbols, try to adopt the
client side of a mirrored donor pending order, otherwise copy by
market or by limit according to the configured style. -/
def pnpBody (cfg : Config) (b : Broker) (position : PositionInfo)
    (st : CopierState) : PhaseResult :=
  if st.skipped_symbols.contains position.symbol then .ok (st, [])
  else
    let afterAdopt : (CopierState × Act) ⊕ CopierState :=
      match dictGet st.donor_pending_orders position.ticket with
      | none => .inr st
      | some client_order_ticket =>
        match getClientOrderByTicket b client_order_ticket with
        | some _ => .inr st
        | none =>
          let found := b.clientPositions.find? (fun pos =>
            pos.symbol == position.symbol && pos.ptype == position.ptype &&
            !((dictValues st.client_positions).contains pos.ticket) &&
            decide (|pos.time - position.time| < 60))
          match found with
          | some found_client_position =>
            let st := { st with
              client_positions :=
                dictSet st.client_positions position.ticket found_client_position.ticket
              copied := dictSet st.copied position.ticket found_client_position.ticket
              client_states :=
                match b.clientPositions.find? (fun p => p.ticket == found_client_position.ticket) with
                | some p => dictSet st.client_states p.ticket p
                | none => st.client_states
              donor_pending_orders := dictDel st.donor_pending_orders position.ticket }
            .inl (st, save_sync_state)
          | none =>
            .inr { st with donor_pending_orders := dictDel st.donor_pending_orders position.ticket }
    match afterAdopt with
    | .inl done => .ok done
    | .inr st =>
      let magic := if cfg.copy_donor_magic ∧ position.magic.isSome then position.magic else none
      if cfg.copy_style = "by_market" then
        let order_type :=
          if position.ptype = POSITION_TYPE_BUY then ORDER_TYPE_BUY else ORDER_TYPE_SELL
        match place_market_order cfg b position.symbol order_type position.volume
          (some st.donor_balance) (some st.client_balance) magic
          (if cfg.order_config.copy_sl_tp then position.sl else none)
          (if cfg.order_config.copy_sl_tp then position.tp else none) with
        | .error e => .error e
        | .ok (deal_ticket, acts) =>
          if truthyNat deal_ticket then
            match get_position_by_symbol b position.symbol with
            | some client_position =>
              let st := { st with
                client_positions :=
                  dictSet st.client_positions position.ticket client_position.ticket
                copied := dictSet st.copied position.ticket client_position.ticket
                client_states :=
                  match b.clientPositions.find? (fun p => p.ticket == client_position.ticket) with
                  | some p => dictSet st.client_states p.ticket p
                  | none => st.client_states }
              .ok (st, acts ++ save_sync_state)
            | none => .ok (st, acts)
          else
            match b.symbolCheck position.symbol with
            | none =>
              if ¬ st.skipped_symbols.contains position.symbol then
                .ok ({ st with skipped_symbols := st.skipped_symbols ++ [position.symbol] }, acts)
              else .ok (st, acts)
            | some _ => .ok (st, acts)
      else
        let order_type :=
          if position.ptype = POSITION_TYPE_BUY then ORDER_TYPE_BUY_LIMIT else ORDER_TYPE_SELL_LIMIT
        match place_limit_order cfg b position.symbol order_type position.volume
          position.price_open (some st.donor_balance) (some st.client_balance) magic
          (if cfg.order_config.copy_sl_tp then position.sl else none)
          (if cfg.order_config.copy_sl_tp then position.tp else none) with
        | .error e => .error e
        | .ok (order_ticket, acts) =>
          let st :=
            if order_ticket = none then
              match b.symbolCheck position.symbol with
              | none =>
                if ¬ st.skipped_symbols.contains position.symbol then
                  { st with skipped_symbols := st.skipped_symbols ++ [position.symbol] }
                else st
              | some _ => st
            else st
          if truthyNat order_ticket then
            let ot := order_ticket.getD 0
            let newInfo : PendingInfo :=
              { donor_ticket := position.ticket
                symbol := position.symbol
                order_type := order_type
                original_price := position.price_open
                position_id := none }
            let st := { st with pending_orders := dictSet st.pending_orders ot newInfo }
            if wait_for_order_fill b ot then
              let st := { st with pending_orders := dictDel st.pending_orders ot }
              match get_position_by_symbol b position.symbol with
              | some client_position =>
                let st := { st with
                  client_positions :=
                    dictSet st.client_positions position.ticket client_position.ticket
                  copied := dictSet st.copied position.ticket client_position.ticket
                  client_states :=
                    match b.clientPositions.find? (fun p => p.ticket == client_position.ticket) with
                    | some p => dictSet st.client_states p.ticket p
                    | none => st.client_states }
                .ok (st, acts ++ save_sync_state)
              | none => .ok (st, acts)
            else .ok (st, acts)
          else .ok (st, acts)

/-- TradeCopier.process_new_positions: positions of the donor snapshot
that are not yet tracked become tracked, enter the monitor state, and
are processed one by one. -/
def processNewPositions (cfg : Config) (b : Broker) (st : CopierState) : PhaseResult :=
  let new_positions := b.donorPositions.filter (fun p => !(st.tracked.contains p.ticket))
  let st := { st with
    tracked := st.tracked ++ new_positions.map (fun p => p.ticket)
    donor_states := new_positions.foldl (fun d p => dictSet d p.ticket p) st.donor_states }
  foldPhase (pnpBody cfg b) new_positions st

/-! ## TradeCopier.optimize_pending_orders -/

/-- One entry of the opening-order walker sweep: drop vanished orders
from the map, otherwise attempt a repricing step. -/
def opoOpenBody (cfg : Config) (b : Broker) (kv : ℕ × PendingInfo)
    (st : CopierState) : PhaseResult :=
  match getClientOrderByTicket b kv.1 with
  | none => .ok ({ st with pending_orders := dictDel st.pending_orders kv.1 }, [])
  | some _ =>
    let r := optimize_order_price cfg b kv.1 kv.2.symbol kv.2.order_type kv.2.original_price
    .ok (st, r.2)

/-- One entry of the closing-order walker sweep. -/
def opoCloseBody (cfg : Config) (b : Broker) (kv : ℕ × CloseInfo)
    (st : CopierState) : PhaseResult :=
  match getClientOrderByTicket b kv.1 with
  | none =>
    .ok ({ st with pending_close_orders_info := dictDel st.pending_close_orders_info kv.1 }, [])
  | some _ =>
    match optimize_close_order_price cfg b kv.1 kv.2.symbol kv.2.order_type
      kv.2.original_close_price with
    | .error e => .error e
    | .ok r => .ok (st, r.2)

/-- TradeCopier.optimize_pending_orders: walk every live opening order
toward its target, then every live closing order. -/
def optimizePendingOrders (cfg : Config) (b : Broker) (st : CopierState) : PhaseResult :=
  pseq (foldPhase (opoOpenBody cfg b) st.pending_orders st)
    (fun st => foldPhase (opoCloseBody cfg b) st.pending_close_orders_info st)

/-! ## TradeCopier.check_pending_order_fills -/

/-- One entry of the fill check: refresh the stored position id while
the order lives; once it vanishes, locate the resulting client
position by id, by the order ticket, or by a symbol-and-direction
fallback, link it and persist, or drop the entry. -/
def cpofBody (cfg : Config) (b : Broker) (kv : ℕ × PendingInfo)
    (st : CopierState) : PhaseResult :=
  let _ := cfg
  let (order_ticket, order_info) := kv
  match getClientOrderByTicket b order_ticket with
  | some order_data =>
    let st :=
      match order_data.position_id with
      | some new_position_id =>
        if new_position_id ≠ 0 ∧ order_info.position_id ≠ some new_position_id then
          let refreshed := { order_info with position_id := some new_position_id }
          { st with pending_orders := dictSet st.pending_orders order_ticket refreshed }
        else st
      | none => st
    .ok (st, [])
  | none =>
    let donor_ticket := order_info.donor_ticket
    let position_id := order_info.position_id
    let search_ticket := if truthyNat position_id then position_id.getD 0 else order_ticket
    let byTicket : Option PositionInfo :=
      match getClientPositionByTicket b search_ticket with
      | some position_data => b.clientPositions.find? (fun p => p.ticket == position_data.ticket)
      | none =>
        if search_ticket ≠ order_ticket then
          match getClientPositionByTicket b order_ticket with
          | some position_data =>
            b.clientPositions.find? (fun p => p.ticket == position_data.ticket)
          | none => none
        else none
    let found_position :=
      match byTicket with
      | some f => some f
      | none =>
        let expected_position_type :=
          if order_info.order_type = ORDER_TYPE_BUY_LIMIT then POSITION_TYPE_BUY
          else POSITION_TYPE_SELL
        b.clientPositions.find? (fun pos =>
          pos.symbol == order_info.symbol && pos.ptype == expected_position_type &&
          !(st.client_positions.any (fun lk => lk.2 == pos.ticket && lk.1 != donor_ticket)) &&
          decide (b.nowTime - pos.time < 60) && pos.ticket != order_ticket)
    match found_position with
    | some fp =>
      let st := { st with
        client_positions := dictSet st.client_positions donor_ticket fp.ticket
        copied := dictSet st.copied donor_ticket fp.ticket
        client_states := dictSet st.client_states fp.ticket fp
        pending_orders := dictDel st.pending_orders order_ticket }
      .ok (st, save_sync_state)
    | none =>
      .ok ({ st with pending_orders := dictDel st.pending_orders order_ticket }, [])

/-- TradeCopier.check_pending_order_fills. -/
def checkPendingOrderFills (cfg : Config) (b : Broker) (st : CopierState) : PhaseResult :=
  foldPhase (cpofBody cfg b) st.pending_orders st

/-! ## TradeCopier.process_closed_positions -/

/-- The body of the loop of TradeCopier.process_closed_positions for
one closed donor ticket: cancel an in-flight opening order, or
late-link an unlinked client position, then close the linked client
position by market or by an opposite limit order. -/
def pcpBody (cfg : Config) (b : Broker) (donor_ticket : ℕ)
    (st : CopierState) : PhaseResult :=
  let pending_order_ticket :=
    (st.pending_orders.find? (fun kv => kv.2.donor_ticket == donor_ticket)).map (fun kv => kv.1)
  if truthyNat pending_order_ticket ∧ ¬ dictHas st.client_positions donor_ticket then
    let pot := pending_order_ticket.getD 0
    let r := cancel_order b pot
    if r.1 then
      let st := { st with
        pending_orders := dictDel st.pending_orders pot
        donor_states := dictDel st.donor_states donor_ticket }
      .ok (st, r.2 ++ save_sync_state)
    else .ok (st, r.2)
  else
    let relinked : (CopierState × Act) ⊕ CopierState :=
      if ¬ dictHas st.client_positions donor_ticket then
        match dictGet st.donor_states donor_ticket with
        | some donor_position_info =>
          let found := b.clientPositions.find? (fun pos =>
            pos.symbol == donor_position_info.symbol &&
            pos.ptype == donor_position_info.ptype &&
            !(st.client_positions.any (fun lk => lk.2 == pos.ticket && lk.1 != donor_ticket)) &&
            decide (b.nowTime - pos.time < 60))
          match found with
          | some found_position =>
            .inr { st with
              client_positions := dictSet st.client_positions donor_ticket found_position.ticket
              copied := dictSet st.copied donor_ticket found_position.ticket }
          | none =>
            .inl ({ st with donor_states := dictDel st.donor_states donor_ticket }, [])
        | none => .inl (st, [])
      else .inr st
    match relinked with
    | .inl done => .ok done
    | .inr st =>
      if ¬ dictHas st.client_positions donor_ticket then .ok (st, [])
      else
        let client_ticket := (dictGet st.client_positions donor_ticket).getD 0
        match getClientPositionByTicket b client_ticket with
        | none =>
          -- the client position is already gone: the link is removed
          -- without a state-file save before the loop moves on
          let st := { st with
            client_positions := dictDel st.client_positions donor_ticket
            pending_close_orders := dictDel st.pending_close_orders donor_ticket
            donor_states := dictDel st.donor_states donor_ticket
            client_states := dictDel st.client_states client_ticket }
          .ok (st, [])
        | some client_position_data =>
          if cfg.copy_style = "by_market" then
            let r := close_position_by_market cfg b client_ticket client_position_data.symbol
              client_position_data.ptype client_position_data.volume
            if r.1 then
              let st := { st with
                client_positions := dictDel st.client_positions donor_ticket
                donor_states := dictDel st.donor_states donor_ticket
                client_states := dictDel st.client_states client_ticket }
              .ok (st, r.2 ++ save_sync_state)
            else .ok (st, r.2)
          else
            match b.tick client_position_data.symbol with
            | none => .ok (st, [])
            | some t =>
              let close_price :=
                if client_position_data.ptype = POSITION_TYPE_BUY then t.bid else t.ask
              match close_position_by_opposite_order cfg b client_position_data.symbol
                client_position_data.volume client_position_data.ptype close_price
                client_ticket with
              | .error e => .error e
              | .ok (close_order_ticket, acts) =>
                if truthyNat close_order_ticket then
                  let cot := close_order_ticket.getD 0
                  let close_order_type :=
                    if client_position_data.ptype = POSITION_TYPE_BUY then ORDER_TYPE_SELL_LIMIT
                    else ORDER_TYPE_BUY_LIMIT
                  let info : CloseInfo :=
                    { donor_ticket := donor_ticket
                      symbol := client_position_data.symbol
                      order_type := close_order_type
                      original_close_price := close_price
                      client_ticket := client_ticket }
                  let st := { st with
                    pending_close_orders := dictSet st.pending_close_orders donor_ticket cot
                    pending_close_orders_info := dictSet st.pending_close_orders_info cot info
                    close_order_to_client_position :=
                      dictSet st.close_order_to_client_position cot client_ticket }
                  .ok (st, acts ++ save_sync_state)
                else .ok (st, acts)

/-- TradeCopier.process_closed_positions: tickets that were tracked
but vanished from the donor snapshot leave the tracked set and are
processed one by one. -/
def processClosedPositions (cfg : Config) (b : Broker) (st : CopierState) : PhaseResult :=
  let current_tickets := b.donorPositions.map (fun p => p.ticket)
  let closed_tickets := st.tracked.filter (fun t => !(current_tickets.contains t))
  let st := { st with tracked := st.tracked.filter (fun t => current_tickets.contains t) }
  foldPhase (pcpBody cfg b) closed_tickets st

/-! ## TradeCopier.check_pending_close_orders -/

/-- One entry of the close-by protocol: when the tracked close order
has vanished, either treat the already-gone original as closed, invoke
close-by against the first opposite position, or re-check for an
automatic netting.  The correspondence map itself is only mutated by
the cleanup afterwards. -/
def cpcoStep (cfg : Config) (b : Broker) (acc : CopierState × Act × List ℕ)
    (kv : ℕ × ℕ) : CopierState × Act × List ℕ :=
  let _ := cfg
  let (st, acts, closed) := acc
  let (donor_ticket, close_order_ticket) := kv
  let ct0 := dictGet st.close_order_to_client_position close_order_ticket
  let ct1 := if truthyNat ct0 then ct0 else dictGet st.client_positions donor_ticket
  if ¬ truthyNat ct1 then (st, acts, closed ++ [donor_ticket])
  else
    let client_ticket := ct1.getD 0
    match getClientOrderByTicket b close_order_ticket with
    | some _ => (st, acts, closed)
    | none =>
      match getClientPositionByTicket b client_ticket with
      | none =>
        ({ st with client_states := dictDel st.client_states client_ticket },
          acts, closed ++ [donor_ticket])
      | some original_position =>
        let symbol := original_position.symbol
        let position_type := original_position.ptype
        let opposite_type :=
          if position_type = POSITION_TYPE_BUY then POSITION_TYPE_SELL else POSITION_TYPE_BUY
        let symbol_positions := b.clientPositions.filter (fun p =>
          p.symbol == symbol && p.ptype == opposite_type && p.ticket != client_ticket)
        match symbol_positions.head? with
        | some opposite_position =>
          let r := close_position_by_opposite_position b client_ticket opposite_position.ticket
          if r.1 then
            ({ st with client_states := dictDel st.client_states client_ticket },
              acts ++ r.2, closed ++ [donor_ticket])
          else (st, acts ++ r.2, closed)
        | none =>
          match getClientPositionByTicket b client_ticket with
          | none =>
            ({ st with client_states := dictDel st.client_states client_ticket },
              acts ++ save_sync_state, closed ++ [donor_ticket])
          | some _ => (st, acts, closed)

/-- The cleanup of TradeCopier.check_pending_close_orders: when any
entry completed, drop its map entries and save; the monitor state of
the last processed donor ticket is also dropped (the source reuses the
loop variable after the loop). -/
def cpcoCleanup (st : CopierState) (closed : List ℕ) : CopierState × Act :=
  match closed with
  | [] => (st, [])
  | _ =>
    let st := closed.foldl (fun s donor_ticket =>
      let s :=
        if dictHas s.pending_close_orders donor_ticket then
          let close_order_ticket := (dictGet s.pending_close_orders donor_ticket).getD 0
          { s with
            pending_close_orders_info := dictDel s.pending_close_orders_info close_order_ticket
            close_order_to_client_position :=
              dictDel s.close_order_to_client_position close_order_ticket
            pending_close_orders := dictDel s.pending_close_orders donor_ticket }
        else s
      if dictHas s.client_positions donor_ticket then
        { s with client_positions := dictDel s.client_positions donor_ticket }
      else s) st
    let st :=
      match closed.getLast? with
      | some donor_ticket => { st with donor_states := dictDel st.donor_states donor_ticket }
      | none => st
    (st, save_sync_state)

/-- TradeCopier.check_pending_close_orders. -/
def checkPendingCloseOrders (cfg : Config) (b : Broker) (st : CopierState) :
    CopierState × Act :=
  let r := st.pending_close_orders.foldl (cpcoStep cfg b) (st, [], [])
  let (st1, acts, closed) := r
  let c := cpcoCleanup st1 closed
  (c.1, acts ++ c.2)

/-- TradeCopier.monitor_position_changes: the monitor replaces its two
snapshots wholesale; only volume changes are logged, nothing acts. -/
def monitorPositionChanges (b : Broker) (st : CopierState) : CopierState × Act :=
  ({ st with
    donor_states := b.donorPositions.map (fun p => (p.ticket, p))
    client_states := b.clientPositions.map (fun p => (p.ticket, p)) }, [])

/-! ## TradeCopier.process_new_orders and process_closed_orders -/

/-- TradeCopier._convert_order_type_to_mt5. -/
def convert_order_type_to_mt5 (order_type : ℤ) : Option ℤ :=
  if order_type = 2 then some ORDER_TYPE_BUY_LIMIT
  else if order_type = 3 then some ORDER_TYPE_SELL_LIMIT
  else if order_type = 4 then some ORDER_TYPE_BUY_STOP
  else if order_type = 5 then some ORDER_TYPE_SELL_STOP
  else if order_type = 6 then some ORDER_TYPE_BUY_STOP_LIMIT
  else if order_type = 7 then some ORDER_TYPE_SELL_STOP_LIMIT
  else none

/-- The body of TradeCopier.process_new_orders for one new donor
pending order. -/
def pnoBody (cfg : Config) (b : Broker) (order : DonorOrder)
    (st : CopierState) : PhaseResult :=
  if st.skipped_symbols.contains order.symbol then .ok (st, [])
  else
    match convert_order_type_to_mt5 order.otype with
    | none => .ok (st, [])
    | some mt5_order_type =>
      match place_pending_order cfg b order.symbol mt5_order_type order.volume
        order.price_open (some st.donor_balance) (some st.client_balance) none
        (if cfg.order_config.copy_sl_tp then order.sl else none)
        (if cfg.order_config.copy_sl_tp then order.tp else none) with
      | .error e => .error e
      | .ok (client_order_ticket, acts) =>
        if truthyNat client_order_ticket then
          let upd := dictSet st.donor_pending_orders order.ticket (client_order_ticket.getD 0)
          let st := { st with donor_pending_orders := upd }
          .ok (st, acts ++ save_sync_state)
        else
          match b.symbolCheck order.symbol with
          | none =>
            if ¬ st.skipped_symbols.contains order.symbol then
              .ok ({ st with skipped_symbols := st.skipped_symbols ++ [order.symbol] }, acts)
            else .ok (st, acts)
          | some _ => .ok (st, acts)

/-- TradeCopier.process_new_orders. -/
def processNewOrders (cfg : Config) (b : Broker) (st : CopierState) : PhaseResult :=
  let new_orders := b.donorOrders.filter (fun o => !(dictHas st.donor_pending_orders o.ticket))
  foldPhase (pnoBody cfg b) new_orders st

/-- The body of TradeCopier.process_closed_orders for one vanished
donor order ticket: adopt the client side when the donor order turned
into a donor position, otherwise cancel the mirrored client order. -/
def pcoBody (cfg : Config) (b : Broker) (donor_order_ticket : ℕ)
    (st : CopierState) : PhaseResult :=
  let _ := cfg
  match dictGet st.donor_pending_orders donor_order_ticket with
  | none => .ok (st, [])
  | some client_order_ticket =>
    if client_order_ticket = 0 then .ok (st, [])
    else
      let adopt : Option (CopierState × Act) :=
        match getClientOrderByTicket b client_order_ticket with
        | some _ => none
        | none =>
          let donor_order_info := b.donorOrders.find? (fun o => o.ticket == donor_order_ticket)
          match b.donorPositions.find? (fun p => p.ticket == donor_order_ticket) with
          | none => none
          | some matching_position =>
            let expected_position_type :=
              match donor_order_info with
              | some doi =>
                let mt := convert_order_type_to_mt5 doi.otype
                if mt = some ORDER_TYPE_BUY_LIMIT ∨ mt = some ORDER_TYPE_BUY_STOP ∨
                    mt = some ORDER_TYPE_BUY_STOP_LIMIT then POSITION_TYPE_BUY
                else POSITION_TYPE_SELL
              | none => matching_position.ptype
            let found := b.clientPositions.find? (fun pos =>
              pos.symbol == matching_position.symbol &&
              pos.ptype == expected_position_type &&
              !((dictValues st.client_positions).contains pos.ticket) &&
              decide (|pos.time - matching_position.time| < 60))
            match found with
            | some found_client_position =>
              some ({ st with
                client_positions :=
                  dictSet st.client_positions matching_position.ticket found_client_position.ticket
                copied := dictSet st.copied matching_position.ticket found_client_position.ticket
                donor_pending_orders := dictDel st.donor_pending_orders donor_order_ticket },
                save_sync_state)
            | none =>
              some ({ st with
                donor_pending_orders := dictDel st.donor_pending_orders donor_order_ticket },
                save_sync_state)
      match adopt with
      | some done => .ok done
      | none =>
        let r := cancel_order b client_order_ticket
        if r.1 then
          let st := { st with
            donor_pending_orders := dictDel st.donor_pending_orders donor_order_ticket }
          .ok (st, r.2 ++ save_sync_state)
        else .ok (st, r.2)

/-- TradeCopier.process_closed_orders. -/
def processClosedOrders (cfg : Config) (b : Broker) (st : CopierState) : PhaseResult :=
  let closed := (dictKeys st.donor_pending_orders).filter
    (fun t => !(b.donorOrders.any (fun o => o.ticket == t)))
  foldPhase (pcoBody cfg b) closed st

/-! ## The reconciliation cycle (TradeCopier.run, one iteration) -/

/-- One iteration of the while-loop of TradeCopier.run: process new
positions, mirror pending orders when enabled, walk live order prices,
check fills, process closed positions, drive the close-by protocol,
and refresh the monitor. -/
def runCycle (cfg : Config) (st : CopierState) (b : Broker) : PhaseResult :=
  pseq (processNewPositions cfg b st) (fun st =>
    pseq (if cfg.order_config.copy_pending_orders then
            pseq (processNewOrders cfg b st) (fun st2 => processClosedOrders cfg b st2)
          else .ok (st, [])) (fun st =>
      pseq (optimizePendingOrders cfg b st) (fun st =>
        pseq (checkPendingOrderFills cfg b st) (fun st =>
          pseq (processClosedPositions cfg b st) (fun st =>
            pseq (.ok (checkPendingCloseOrders cfg b st)) (fun st =>
              .ok (monitorPositionChanges b st)))))))

/-! ## Startup: initialize, validate, restore, load (main.py) -/

/-- The state after TradeCopier.initialize, before the persisted map
is restored: the monitor snapshots are seeded and every live donor
position becomes tracked. -/
def initializeState (b : Broker) (donor_balance client_balance : ℚ) : CopierState :=
  { donor_states := b.donorPositions.map (fun p => (p.ticket, p))
    client_states := b.clientPositions.map (fun p => (p.ticket, p))
    tracked := b.donorPositions.map (fun p => p.ticket)
    donor_balance := donor_balance
    client_balance := client_balance }

/-- The client-position validation loop of
TradeCopier.validate_and_merge_state: for every client position the
best-scoring not-yet-used donor position (with the saved-linkage
bonus) is accepted at a score of at least 20; saved_links maps client
tickets to their previously saved donor tickets. -/
def validateClientPositions (cfg : Config) (b : Broker)
    (saved_links : List (ℕ × ℕ)) : List (ℕ × ℕ) :=
  (b.clientPositions.foldl (fun (acc : List (ℕ × ℕ) × List ℕ) client_pos =>
    let (validated, used) := acc
    let saved_donor_ticket := dictGet saved_links client_pos.ticket
    let best := b.donorPositions.foldl (fun (bst : ℚ × Option ℕ) donor_pos =>
      if used.contains donor_pos.ticket then bst
      else
        match positionMatchScore cfg.copy_donor_magic (b.symbolCheck donor_pos.symbol)
            client_pos donor_pos (saved_donor_ticket = some donor_pos.ticket) with
        | none => bst
        | some score => if score > bst.1 then (score, some donor_pos.ticket) else bst)
      ((0 : ℚ), none)
    match best.2 with
    | some best_donor_ticket =>
      if best.1 ≥ 20 then
        (dictSet validated best_donor_ticket client_pos.ticket, used ++ [best_donor_ticket])
      else acc
    | none => acc) ([], [])).1

/-- TradeCopier.validate_and_merge_state: re-derive the position links
by matching, keep in-flight opening orders whose client order still
exists, keep close orders whose donor position and client order both
still exist (together with their info entries), and keep mirrored
donor orders whose client order still exists. -/
def validate_and_merge_state (cfg : Config) (b : Broker) (saved : SavedState) : SavedState :=
  let saved_links := saved.client_positions.foldl (fun acc kv => dictSet acc kv.2 kv.1) []
  let keptClose := saved.pending_close_orders.filter (fun kv =>
    (b.donorPositions.any (fun p => p.ticket == kv.1)) &&
    (getClientOrderByTicket b kv.2).isSome)
  { client_positions := validateClientPositions cfg b saved_links
    pending_orders := saved.pending_orders.filter
      (fun kv => (getClientOrderByTicket b kv.1).isSome)
    pending_close_orders := keptClose
    pending_close_orders_info := keptClose.foldl (fun acc kv =>
      match dictGet saved.pending_close_orders_info kv.2 with
      | some v => dictSet acc kv.2 v
      | none => acc) []
    close_order_to_client_position := keptClose.foldl (fun acc kv =>
      match dictGet saved.close_order_to_client_position kv.2 with
      | some v => dictSet acc kv.2 v
      | none => acc) []
    donor_pending_orders := saved.donor_pending_orders.filter
      (fun kv => (getClientOrderByTicket b kv.2).isSome) }

/-- The position-matching half of TradeCopier.restore_sync_state:
donor tickets already linked are excluded up front, every unlinked
client position takes the best-scoring free donor position (no saved
bonus) at a score of at least 20. -/
def restoreMatchPositions (cfg : Config) (b : Broker) (st : CopierState) : CopierState :=
  (b.clientPositions.foldl (fun (acc : CopierState × List ℕ) client_pos =>
    let (st, used) := acc
    if (dictValues st.client_positions).contains client_pos.ticket then acc
    else
      let best := b.donorPositions.foldl (fun (bst : ℚ × Option ℕ) donor_pos =>
        if used.contains donor_pos.ticket then bst
        else
          match positionMatchScore cfg.copy_donor_magic (b.symbolCheck donor_pos.symbol)
              client_pos donor_pos false with
          | none => bst
          | some score => if score > bst.1 then (score, some donor_pos.ticket) else bst)
        ((0 : ℚ), none)
      match best.2 with
      | some best_donor_ticket =>
        if best.1 ≥ 20 then
          ({ st with
            client_positions := dictSet st.client_positions best_donor_ticket client_pos.ticket
            copied := dictSet st.copied best_donor_ticket client_pos.ticket },
            used ++ [best_donor_ticket])
        else acc
      | none => acc)
    (st, dictKeys st.client_positions)).1

/-- The per-candidate scoring of the opening-order restoration in
TradeCopier.restore_sync_state: symbol and expected direction must
match, the order price must be within the (tighter) tolerance, and a
large time gap rejects the candidate outright. -/
def orderRestoreScore (b : Broker) (order : OrderData) (donor_pos : PositionInfo)
    (expected_position_type : Option ℤ) : Option ℚ :=
  if donor_pos.symbol ≠ order.symbol ∨ some donor_pos.ptype ≠ expected_position_type then none
  else
    let score : ℚ := 10
    let price_diff := |order.price_open - donor_pos.price_open|
    let max_price_diff :=
      match b.symbolCheck order.symbol with
      | some si => max (si.point * 10) (1/1000)
      | none => (1/1000 : ℚ)
    if price_diff ≤ max_price_diff then
      let score := score + 10 * (1 - min (price_diff / max_price_diff) 1)
      if order.time_setup > 0 ∧ donor_pos.time > 0 then
        let time_diff := |donor_pos.time - order.time_setup|
        if time_diff ≤ 300 then some (score + 10 * (1 - min (time_diff / 300) 1))
        else if time_diff ≤ 3600 then some (score + 5 * (1 - min ((time_diff - 300) / 3300) 1))
        else none
      else some score
    else none

/-- The order-restoration half of TradeCopier.restore_sync_state: a
client pending order on a symbol with an open linked client position
of the opposite direction is adopted as a closing order; otherwise the
best-scoring free donor position at a score of at least 15 re-creates
an opening-order entry. -/
def restoreOrders (cfg : Config) (b : Broker) (st : CopierState) : CopierState :=
  let _ := cfg
  b.clientOrders.foldl (fun st order =>
    let symbol := order.symbol
    let order_type := order.otype
    let firstOnSymbol := b.clientPositions.find? (fun p => p.symbol == symbol)
    let donor_ticket :=
      match firstOnSymbol with
      | some p =>
        (st.client_positions.find? (fun kv => kv.2 == p.ticket)).map (fun kv => kv.1)
      | none => none
    let closing :=
      match firstOnSymbol with
      | some p => if truthyNat donor_ticket then some p.ticket else none
      | none => none
    match closing with
    | some client_position_ticket =>
      let d := donor_ticket.getD 0
      match b.clientPositions.find? (fun p => p.ticket == client_position_ticket) with
      | some client_pos =>
        let is_opposite :=
          (order_type = ORDER_TYPE_SELL_LIMIT ∧ client_pos.ptype = POSITION_TYPE_BUY) ∨
          (order_type = ORDER_TYPE_BUY_LIMIT ∧ client_pos.ptype = POSITION_TYPE_SELL)
        if is_opposite then
          let info : CloseInfo :=
            { donor_ticket := d
              symbol := symbol
              order_type := order_type
              original_close_price := order.price_open
              client_ticket := client_position_ticket }
          { st with
            pending_close_orders := dictSet st.pending_close_orders d order.ticket
            close_order_to_client_position :=
              dictSet st.close_order_to_client_position order.ticket client_position_ticket
            pending_close_orders_info :=
              dictSet st.pending_close_orders_info order.ticket info }
        else st
      | none => st
    | none =>
      let expected_position_type :=
        if order_type = ORDER_TYPE_BUY_LIMIT then some POSITION_TYPE_BUY
        else if order_type = ORDER_TYPE_SELL_LIMIT then some POSITION_TYPE_SELL
        else none
      let best := b.donorPositions.foldl (fun (bst : ℚ × Option ℕ) donor_pos =>
        if dictHas st.client_positions donor_pos.ticket then bst
        else
          match orderRestoreScore b order donor_pos expected_position_type with
          | none => bst
          | some score => if score > bst.1 then (score, some donor_pos.ticket) else bst)
        ((0 : ℚ), none)
      match best.2 with
      | some best_donor_ticket =>
        if best.1 ≥ 15 then
          let info : PendingInfo :=
            { donor_ticket := best_donor_ticket
              symbol := symbol
              order_type := order_type
              original_price := order.price_open
              position_id := none }
          { st with pending_orders := dictSet st.pending_orders order.ticket info }
        else st
      | none => st) st

/-- TradeCopier.restore_sync_state. -/
def restore_sync_state (cfg : Config) (b : Broker) (st : CopierState) : CopierState :=
  restoreOrders cfg b (restoreMatchPositions cfg b st)

/-- TradeCopier.load_and_restore_sync_state: validate the saved map
against the live state and merge the valid parts; run the matcher when
the state proved partially stale or empty; save afterwards. -/
def load_and_restore_sync_state (cfg : Config) (b : Broker) (saved : Option SavedState)
    (st : CopierState) : CopierState × Act :=
  match saved with
  | some s =>
    let v := validate_and_merge_state cfg b s
    let st := { st with
      client_positions := dictUpdate st.client_positions v.client_positions
      pending_orders := dictUpdate st.pending_orders v.pending_orders
      pending_close_orders := dictUpdate st.pending_close_orders v.pending_close_orders
      pending_close_orders_info :=
        dictUpdate st.pending_close_orders_info v.pending_close_orders_info
      close_order_to_client_position :=
        dictUpdate st.close_order_to_client_position v.close_order_to_client_position
      donor_pending_orders := dictUpdate st.donor_pending_orders v.donor_pending_orders
      copied := v.client_positions.foldl (fun c kv => dictSet c kv.1 kv.2) st.copied }
    let need_restore :=
      v.client_positions.length < s.client_positions.length ∨
      v.pending_orders.length < s.pending_orders.length ∨
      v.pending_close_orders.length < s.pending_close_orders.length ∨
      (v.client_positions.length = 0 ∧ b.donorPositions ≠ [] ∧ b.clientPositions ≠ [])
    let st := if need_restore then restore_sync_state cfg b st else st
    (st, save_sync_state)
  | none => (restore_sync_state cfg b st, save_sync_state)

/-! ## Theorems -/

/-- Claim C8, counterexample: the dominance check is not reflexive for
every order kind.  For a plain market BUY kind (and a positive point)
it returns false at equal prices, because the function answers false
for any kind other than the two limit kinds. -/
theorem C8_dominance_counterexample :
    is_price_better_or_equal ORDER_TYPE_BUY 1 1 (1/10000) = false ∧ (0 : ℚ) < 1/10000 := by
  constructor
  · rfl
  · norm_num

/-- Claim C8 (amended): the dominance check is reflexive for the two
limit order kinds: for every price p and positive point,
dominance(p, p, kind, point) is true when kind is BUY_LIMIT or
SELL_LIMIT; for any other kind it returns false. -/
theorem C8_dominance_amended (p point : ℚ) (kind : ℤ) (hpt : 0 < point)
    (hk : kind = ORDER_TYPE_BUY_LIMIT ∨ kind = ORDER_TYPE_SELL_LIMIT) :
    is_price_better_or_equal kind p p point = true := by
  rcases hk with h | h <;> subst h <;>
    simp [is_price_better_or_equal, ORDER_TYPE_BUY_LIMIT, ORDER_TYPE_SELL_LIMIT] <;>
    nlinarith

/-- Witness for C8_dominance_amended at p = 1, point = 1/10000,
kind = BUY_LIMIT. -/
theorem C8_dominance_amended_witness :
    is_price_better_or_equal 2 1 1 (1/10000) = true :=
  C8_dominance_amended 1 (1/10000) 2 (by norm_num) (Or.inl rfl)

/-- Claim C9, counterexample: the lot calculation is not always a
multiple of the volume step, and not always inside the bounds.  With
min lot 0.01, max lot 100 and step 0.03, a fixed lot of 0.01 rounds to
zero multiples of the step and is clamped back to 0.01, which is not a
multiple of 0.03; and when min lot 2 exceeds max lot 1 the result 2
lies above the upper bound. -/
theorem C9_lot_bounds_counterexample :
    calculate_lot_size (1/10) "fixed" (some (1/100)) 1000 1000
      (some (1/100)) (some 100) (some (3/100)) = 1/100 ∧
    ¬ IsMultipleOf (1/100) (3/100) ∧
    calculate_lot_size 1 "fixed" (some 1) 0 0 (some 2) (some 1) (some (1/100)) = 2 ∧
    ¬ ((2 : ℚ) ≤ 1) := by
  refine ⟨?_, ?_, ?_, by norm_num⟩
  · norm_num [calculate_lot_size, DEFAULT_MIN_LOT, DEFAULT_MAX_LOT, DEFAULT_VOLUME_STEP,
      pyRoundInt]
  · rintro ⟨k, hk⟩
    have h3 : (1 : ℚ) = (k : ℚ) * 3 := by linarith
    have h4 : (1 : ℤ) = k * 3 := by exact_mod_cast h3
    omega
  · norm_num [calculate_lot_size, DEFAULT_MIN_LOT, DEFAULT_MAX_LOT, DEFAULT_VOLUME_STEP,
      pyRoundInt]

/-- Claim C9 (amended): whenever the effective minimum lot does not
exceed the effective maximum lot and the effective volume step is
positive, the lot calculation lands inside the clamp interval, and its
result is either an integer multiple of the volume step or equal to
one of the two clamp bounds (the final clamp can move a rounded value
back onto a bound that is itself not a multiple of the step). -/
theorem C9_lot_bounds_amended (donor_lot : ℚ) (mode : String) (value : Option ℚ)
    (donor_balance client_balance : ℚ)
    (symbol_min_lot symbol_max_lot symbol_volume_step : Option ℚ)
    (hmm : symbol_min_lot.getD DEFAULT_MIN_LOT ≤ symbol_max_lot.getD DEFAULT_MAX_LOT)
    (hs : 0 < symbol_volume_step.getD DEFAULT_VOLUME_STEP) :
    symbol_min_lot.getD DEFAULT_MIN_LOT ≤
      calculate_lot_size donor_lot mode value donor_balance client_balance
        symbol_min_lot symbol_max_lot symbol_volume_step ∧
    calculate_lot_size donor_lot mode value donor_balance client_balance
        symbol_min_lot symbol_max_lot symbol_volume_step ≤
      symbol_max_lot.getD DEFAULT_MAX_LOT ∧
    (IsMultipleOf
        (calculate_lot_size donor_lot mode value donor_balance client_balance
          symbol_min_lot symbol_max_lot symbol_volume_step)
        (symbol_volume_step.getD DEFAULT_VOLUME_STEP) ∨
      calculate_lot_size donor_lot mode value donor_balance client_balance
          symbol_min_lot symbol_max_lot symbol_volume_step =
        symbol_min_lot.getD DEFAULT_MIN_LOT ∨
      calculate_lot_size donor_lot mode value donor_balance client_balance
          symbol_min_lot symbol_max_lot symbol_volume_step =
        symbol_max_lot.getD DEFAULT_MAX_LOT) := by
  set em := symbol_min_lot.getD DEFAULT_MIN_LOT with hem
  set eM := symbol_max_lot.getD DEFAULT_MAX_LOT with heM
  set es := symbol_volume_step.getD DEFAULT_VOLUME_STEP with hes
  have hcalc : calculate_lot_size donor_lot mode value donor_balance client_balance
      symbol_min_lot symbol_max_lot symbol_volume_step =
      max em (min eM ((pyRoundInt ((max em (min eM
        (if mode = "fixed" then value.getD donor_lot
         else if mode = "proportion" then donor_lot * value.getD 1
         else if mode = "autolot" then (client_balance / 1000) * value.getD 1
         else donor_lot))) / es) : ℚ) * es)) := by
    unfold calculate_lot_size
    rw [← hem, ← heM, ← hes, if_pos hs]
  rw [hcalc]
  set lot0 := (if mode = "fixed" then value.getD donor_lot
    else if mode = "proportion" then donor_lot * value.getD 1
    else if mode = "autolot" then (client_balance / 1000) * value.getD 1
    else donor_lot)
  set r0 := ((pyRoundInt ((max em (min eM lot0)) / es) : ℚ) * es) with hr0
  refine ⟨le_max_left _ _, max_le hmm (min_le_left _ _), ?_⟩
  rcases le_or_lt r0 em with h1 | h1
  · right; left
    have hminr : min eM r0 = r0 := min_eq_right (le_trans h1 hmm)
    rw [hminr]
    exact max_eq_left h1
  · rcases le_or_lt r0 eM with h2 | h2
    · left
      have hminr : min eM r0 = r0 := min_eq_right h2
      rw [hminr, max_eq_right (le_of_lt h1)]
      exact ⟨pyRoundInt ((max em (min eM lot0)) / es), rfl⟩
    · right; right
      have hminr : min eM r0 = eM := min_eq_left (le_of_lt h2)
      rw [hminr]
      exact max_eq_right hmm

/-- Witness for C9_lot_bounds_amended in proportion mode with the
symbol bounds 0.01, 100 and step 0.01. -/
theorem C9_lot_bounds_amended_witness :
    (some (1/100) : Option ℚ).getD DEFAULT_MIN_LOT ≤
      calculate_lot_size (1/10) "proportion" none 0 0
        (some (1/100)) (some 100) (some (1/100)) ∧
    calculate_lot_size (1/10) "proportion" none 0 0
        (some (1/100)) (some 100) (some (1/100)) ≤
      (some (100 : ℚ) : Option ℚ).getD DEFAULT_MAX_LOT ∧
    (IsMultipleOf
        (calculate_lot_size (1/10) "proportion" none 0 0
          (some (1/100)) (some 100) (some (1/100)))
        ((some (1/100) : Option ℚ).getD DEFAULT_VOLUME_STEP) ∨
      calculate_lot_size (1/10) "proportion" none 0 0
          (some (1/100)) (some 100) (some (1/100)) =
        (some (1/100) : Option ℚ).getD DEFAULT_MIN_LOT ∨
      calculate_lot_size (1/10) "proportion" none 0 0
          (some (1/100)) (some 100) (some (1/100)) =
        (some (100 : ℚ) : Option ℚ).getD DEFAULT_MAX_LOT) :=
  C9_lot_bounds_amended (1/10) "proportion" none 0 0
    (some (1/100)) (some 100) (some (1/100)) (by norm_num [DEFAULT_MIN_LOT])
    (by norm_num [DEFAULT_VOLUME_STEP])

/-- The broker environment of the C7 counterexample: the select call
fails, yet metadata and tick are available. -/
def c7env : SymbolEnv :=
  { selectResult := false
    info := some {}
    tickResult := some { bid := 1, ask := 1 } }

/-- Claim C7, counterexample: a failing symbol selection does not make
symbol_check return unavailable.  The worker discards the result of
the select call, so with a failed select but available metadata and
tick the check still returns the metadata. -/
theorem C7_symbol_check_counterexample :
    c7env.selectResult = false ∧
    worker_symbol_check c7env = .ok ({} : SymbolData) ∧
    check_and_select_client_symbol c7env = some ({} : SymbolData) := by
  refine ⟨rfl, rfl, rfl⟩

/-- Claim C7 (amended): symbol_check selects the symbol first but
ignores the outcome of the selection; it returns unavailable exactly
when the metadata fetch or the tick fetch fails, and the manager maps
an unavailable reply to None. -/
theorem C7_symbol_check_amended (e : SymbolEnv) :
    ((∃ d, worker_symbol_check e = .ok d) ↔ (e.info.isSome ∧ e.tickResult.isSome)) ∧
    (check_and_select_client_symbol e = none ↔ (e.info = none ∨ e.tickResult = none)) ∧
    worker_symbol_check e =
      worker_symbol_check { e with selectResult := ¬ e.selectResult } := by
  obtain ⟨sel, info, tick⟩ := e
  cases info <;> cases tick <;>
    simp [worker_symbol_check, check_and_select_client_symbol]

/-- The client and donor positions of the C10 counterexample: equal in
every signal except the open time. -/
def c10client : PositionInfo :=
  { ticket := 1, symbol := "EURUSD", ptype := 0, volume := 1/10, price_open := 11/10, time := 0 }

/-- Donor candidate whose open-time delta is 86401 seconds. -/
def c10donorFar : PositionInfo := { c10client with ticket := 2, time := 86401 }

/-- Donor candidate whose open-time delta is exactly 60 seconds. -/
def c10donorNear : PositionInfo := { c10client with ticket := 3, time := 60 }

set_option maxHeartbeats 1000000 in
/-- Claim C10, counterexample: a pairing with an open-time delta above
86400 s does not always score strictly below an otherwise identical
pairing within 60 s: at a delta of exactly 60 s the time contribution
is already zero, so both pairings score 30. -/
theorem C10_time_scoring_counterexample :
    positionMatchScore false (some {}) c10client c10donorFar false = some 30 ∧
    positionMatchScore false (some {}) c10client c10donorNear false = some 30 ∧
    |c10client.time - c10donorFar.time| > 86400 ∧
    |c10client.time - c10donorNear.time| ≤ 60 := by
  refine ⟨?_, ?_, ?_, ?_⟩ <;>
    norm_num [positionMatchScore, magicScoreStep, priceScoreStep, timeScore,
      c10client, c10donorFar, c10donorNear]

/-- The time contribution vanishes above one day. -/
theorem timeScore_eq_zero_of_gt (td : ℚ) (h : 86400 < td) : timeScore td = 0 := by
  unfold timeScore
  rw [if_neg (by linarith), if_neg (by linarith), if_neg (by linarith), if_neg (by linarith)]

/-- The time contribution is strictly positive strictly inside the
first minute. -/
theorem timeScore_pos_of_lt (td : ℚ) (h0 : 0 ≤ td) (h : td < 60) : 0 < timeScore td := by
  unfold timeScore
  rw [if_pos (le_of_lt h)]
  have hlt : td / 60 < 1 := (div_lt_one (by norm_num)).mpr h
  have hmin : min (td / 60) 1 < 1 := min_lt_iff.mpr (Or.inl hlt)
  nlinarith

/-- The price rule is strictly monotone in the incoming score wherever
it accepts. -/
theorem priceScoreStep_mono (si : Option SymbolData) (c d : PositionInfo)
    (s1 s2 v1 v2 : ℚ) (h1 : priceScoreStep si c d s1 = some v1)
    (h2 : priceScoreStep si c d s2 = some v2) (h : s1 < s2) : v1 < v2 := by
  simp only [priceScoreStep] at h1 h2
  split_ifs at h1 h2 <;> simp_all <;> linarith

/-- Claim C10 (amended): in the matcher scoring, a candidate pairing
whose open-time delta exceeds 86400 s scores strictly less than an
otherwise identical pairing whose delta is strictly below 60 s
(whenever neither is rejected).  At a delta of exactly 60 s the time
contribution is already zero and the two scores coincide. -/
theorem C10_time_scoring_amended (cdm : Bool) (si : Option SymbolData)
    (c d : PositionInfo) (bonus : Bool) (t1 t2 s1 s2 : ℚ)
    (h1 : |c.time - t1| > 86400) (h2 : |c.time - t2| < 60)
    (hs1 : positionMatchScore cdm si c { d with time := t1 } bonus = some s1)
    (hs2 : positionMatchScore cdm si c { d with time := t2 } bonus = some s2) :
    s1 < s2 := by
  have hsym : ∀ t : ℚ, positionMatchScore cdm si c { d with time := t } bonus =
      (if c.symbol ≠ d.symbol ∨ c.ptype ≠ d.ptype then none
       else
         match magicScoreStep cdm c d 20 with
         | none => none
         | some score =>
           match priceScoreStep si c d (score + timeScore |c.time - t|) with
           | none => none
           | some score => some (if bonus then score + 10 else score)) :=
    fun _ => rfl
  rw [hsym] at hs1
  rw [hsym] at hs2
  by_cases hc : c.symbol ≠ d.symbol ∨ c.ptype ≠ d.ptype
  · rw [if_pos hc] at hs1
    exact absurd hs1 (by simp)
  · rw [if_neg hc] at hs1
    rw [if_neg hc] at hs2
    cases hmg : magicScoreStep cdm c d 20 with
    | none => simp [hmg] at hs1
    | some mg =>
      simp only [hmg] at hs1 hs2
      have hts1 : timeScore |c.time - t1| = 0 := timeScore_eq_zero_of_gt _ h1
      have hts2 : 0 < timeScore |c.time - t2| := timeScore_pos_of_lt _ (abs_nonneg _) h2
      cases hp1 : priceScoreStep si c d (mg + timeScore |c.time - t1|) with
      | none => simp [hp1] at hs1
      | some v1 =>
        cases hp2 : priceScoreStep si c d (mg + timeScore |c.time - t2|) with
        | none => simp [hp2] at hs2
        | some v2 =>
          simp only [hp1, Option.some.injEq] at hs1
          simp only [hp2, Option.some.injEq] at hs2
          have hv : v1 < v2 :=
            priceScoreStep_mono si c d _ _ _ _ hp1 hp2 (by linarith)
          cases bonus <;> simp at hs1 hs2 <;> linarith

/-- Witness for C10_time_scoring_amended: the same concrete pairings
as the counterexample but with the near delta strictly inside the
first minute (0 s), where the far pairing scores 30 and the near one
50. -/
theorem C10_time_scoring_amended_witness : (30 : ℚ) < 50 :=
  C10_time_scoring_amended false (some {}) c10client c10donorFar false 86401 0 30 50
    (by norm_num [c10client])
    (by norm_num [c10client])
    (by norm_num [positionMatchScore, magicScoreStep, priceScoreStep, timeScore,
      c10client, c10donorFar])
    (by norm_num [positionMatchScore, magicScoreStep, priceScoreStep, timeScore,
      c10client, c10donorFar])

/-- Configuration of the C5 counterexample: optimizing toward the
market. -/
def c5cfg : Config :=
  { lot_config := { mode := "fixed", value := some (1/100) }
    order_config := { optimize_to_market := true } }

/-- The live BUY_LIMIT order of the C5 counterexample. -/
def c5order : OrderData :=
  { ticket := 10, symbol := "EURUSD", otype := 2, price_open := 110020/100000 }

/-- Broker snapshot of the C5 counterexample: a live BUY_LIMIT at
1.10020 with bid 1.10020 and ask 1.10030; every submission is
accepted. -/
def c5broker : Broker :=
  { clientOrders := [c5order]
    tick := fun s => if s == "EURUSD" then
      some { bid := 110020/100000, ask := 110030/100000 } else none
    symbolCheck := fun s => if s == "EURUSD" then some {} else none
    submit := fun _ => some { retcode := 10009, order := some 10 } }

/-- The modification submitted in the C5 counterexample. -/
def c5modReq : TradeRequest :=
  { action := TRADE_ACTION_MODIFY
    order := some 10
    symbol := "EURUSD"
    price := 110021/100000
    deviation := 20 }

/-- Claim C5, counterexample: when optimizing toward the market the
walker submits the one-point candidate without requiring it to be
strictly below the current bid.  Here the candidate 1.10021 is at or
above the bid 1.10020, is strictly closer to the ask, and the MODIFY
request is submitted and succeeds. -/
theorem C5_walker_counterexample :
    optimize_order_price c5cfg c5broker 10 "EURUSD" ORDER_TYPE_BUY_LIMIT (110050/100000)
      = (true, [Action.submit c5modReq]) ∧
    ¬ (c5modReq.price < 110020/100000) := by
  constructor
  · norm_num [optimize_order_price, c5cfg, c5broker, c5order, c5modReq,
      getClientOrderByTicket, buyLimitOneStep, ORDER_TYPE_BUY_LIMIT,
      TRADE_ACTION_MODIFY, TRADE_RETCODE_DONE, List.find?, abs_lt, abs_of_pos]
  · norm_num [c5modReq]

/-- Claim C5 (amended): a one-point walker step submits the candidate
price current plus point (BUY_LIMIT) or current minus point
(SELL_LIMIT) only when the candidate is strictly closer to the target:
toward the market that is the only requirement, the broker rule being
left to the terminal; toward the original price the candidate must in
addition not be above (below) the original and be strictly below the
bid (above the ask). -/
theorem C5_walker_amended :
    (∀ (toM : Bool) (cur point ask bid orig p : ℚ),
      buyLimitOneStep toM cur point ask bid orig = some p →
        p = cur + point ∧
        (toM = true → |p - ask| < |cur - ask|) ∧
        (toM = false → p ≤ orig ∧ p < bid ∧ |p - orig| < |cur - orig|)) ∧
    (∀ (toM : Bool) (cur point bid ask orig p : ℚ),
      sellLimitOneStep toM cur point bid ask orig = some p →
        p = cur - point ∧
        (toM = true → |p - bid| < |cur - bid|) ∧
        (toM = false → orig ≤ p ∧ ask < p ∧ |p - orig| < |cur - orig|)) := by
  constructor
  · intro toM cur point ask bid orig p h
    simp only [buyLimitOneStep] at h
    split_ifs at h with hgt hm hcl hco hcl2 <;> simp_all
  · intro toM cur point bid ask orig p h
    simp only [sellLimitOneStep] at h
    split_ifs at h with hgt hm hcl hco hcl2 <;> simp_all

/-- Witness for C5_walker_amended at the to-original BUY_LIMIT step
from price 1 with point 0.1, original 2 and bid 3. -/
theorem C5_walker_amended_witness :
    (11/10 : ℚ) = 1 + 1/10 ∧
    ((false : Bool) = true → |(11/10 : ℚ) - 2| < |(1 : ℚ) - 2|) ∧
    ((false : Bool) = false →
      (11/10 : ℚ) ≤ 2 ∧ (11/10 : ℚ) < 3 ∧ |(11/10 : ℚ) - 2| < |(1 : ℚ) - 2|) :=
  C5_walker_amended.1 false 1 (1/10) 2 3 2 (11/10)
    (by norm_num [buyLimitOneStep, abs_lt])

/-- One failing attempt of the placement retry loop: when the computed
limit price is worse than the original, the loop widens the offset by
one point and retries without submitting. -/
theorem placeLimitLoop_fail_step {cfg : Config} {b : Broker} {symbol : String}
    {order_type : ℤ} {lot original_price market_price bid_price ask_price : ℚ}
    {digits : ℕ} {point : ℚ} {magic : Option ℤ} {sl tp : Option ℚ}
    {fuel : ℕ} {current_offset : ℚ}
    (h : is_price_better_or_equal order_type
      (calculate_limit_price order_type market_price original_price current_offset
        symbol digits point (some bid_price) (some ask_price)) original_price point = false) :
    placeLimitLoop cfg b symbol order_type lot original_price market_price bid_price
      ask_price digits point magic sl tp (fuel + 1) current_offset =
    placeLimitLoop cfg b symbol order_type lot original_price market_price bid_price
      ask_price digits point magic sl tp fuel (current_offset + point) := by
  simp only [placeLimitLoop, h]
  simp

/-- One accepted attempt of the placement retry loop: when the computed
limit price passes the dominance check and the broker answers DONE,
the loop returns the assigned ticket after the single submission. -/
theorem placeLimitLoop_accept_step {cfg : Config} {b : Broker} {symbol : String}
    {order_type : ℤ} {lot original_price market_price bid_price ask_price : ℚ}
    {digits : ℕ} {point : ℚ} {magic : Option ℤ} {sl tp : Option ℚ}
    {fuel : ℕ} {current_offset : ℚ} (r : SubmitResult)
    (h : is_price_better_or_equal order_type
      (calculate_limit_price order_type market_price original_price current_offset
        symbol digits point (some bid_price) (some ask_price)) original_price point = true)
    (hsub : b.submit
      { action := TRADE_ACTION_PENDING
        symbol := symbol
        volume := lot
        rtype := order_type
        price := calculate_limit_price order_type market_price original_price current_offset
          symbol digits point (some bid_price) (some ask_price)
        deviation := 20
        magic := magic.getD cfg.order_config.magic
        comment := "Copied order"
        sl := slTpField cfg.order_config.copy_sl_tp sl
        tp := slTpField cfg.order_config.copy_sl_tp tp } = some r)
    (hret : r.retcode = TRADE_RETCODE_DONE) :
    placeLimitLoop cfg b symbol order_type lot original_price market_price bid_price
      ask_price digits point magic sl tp (fuel + 1) current_offset =
    (r.order, [Action.submit
      { action := TRADE_ACTION_PENDING
        symbol := symbol
        volume := lot
        rtype := order_type
        price := calculate_limit_price order_type market_price original_price current_offset
          symbol digits point (some bid_price) (some ask_price)
        deviation := 20
        magic := magic.getD cfg.order_config.magic
        comment := "Copied order"
        sl := slTpField cfg.order_config.copy_sl_tp sl
        tp := slTpField cfg.order_config.copy_sl_tp tp }]) := by
  simp only [placeLimitLoop, h, hsub, hret]
  simp

/-- Configuration of the C4 scenario: fixed lot 0.01, default magic,
offset of two points. -/
def c4cfg : Config :=
  { lot_config := { mode := "fixed", value := some (1/100) }
    order_config := {} }

/-- Broker of the C4 scenario: every submission is accepted with
ticket 77. -/
def c4broker : Broker :=
  { submit := fun _ => some { retcode := 10009, order := some 77 } }

/-- The request submitted in the C4 scenario. -/
def c4req : TradeRequest :=
  { action := TRADE_ACTION_PENDING
    symbol := "EURUSD"
    volume := 1/100
    rtype := ORDER_TYPE_BUY_LIMIT
    price := 110000/100000
    deviation := 20
    magic := 234000
    comment := "Copied order" }

/-- Claim C4: with point 0.00001, digits 5, an initial offset of two
points, client bid 1.10020 and ask 1.10025, and a donor BUY position
opened at 1.10000, the placement retry loop (with an accepting broker
and at least 24 permitted attempts) submits exactly one BUY_LIMIT
request, at price min(1.10025 - 0.00002, 1.10000) = 1.10000: the first
23 computed prices are worse than the original and only widen the
offset. -/
theorem C4_limit_happy_path (n : ℕ) (hn : 24 ≤ n) :
    placeLimitLoop c4cfg c4broker "EURUSD" ORDER_TYPE_BUY_LIMIT (1/100) (110000/100000)
      (110025/100000) (110020/100000) (110025/100000) 5 (1/100000) none none none
      n (2 * (1/100000)) = (some 77, [Action.submit c4req]) ∧
    c4req.price = min (110025/100000 - 2/100000 : ℚ) (110000/100000) := by
  obtain ⟨m, rfl⟩ := Nat.exists_eq_add_of_le hn
  refine ⟨?_, by norm_num [c4req, min_def]⟩
  rw [Nat.add_comm 24 m]
  simp only [show m + 24 = m + 23 + 1 from rfl]
  rw [placeLimitLoop_fail_step (by norm_num [is_price_better_or_equal, calculate_limit_price, pyRoundTo,
      pyRoundInt, ORDER_TYPE_BUY_LIMIT, ORDER_TYPE_SELL_LIMIT,
      decide_eq_false_iff_not, decide_eq_true_eq])]
  simp only [show m + 23 = m + 22 + 1 from rfl]
  rw [placeLimitLoop_fail_step (by norm_num [is_price_better_or_equal, calculate_limit_price, pyRoundTo,
      pyRoundInt, ORDER_TYPE_BUY_LIMIT, ORDER_TYPE_SELL_LIMIT,
      decide_eq_false_iff_not, decide_eq_true_eq])]
  simp only [show m + 22 = m + 21 + 1 from rfl]
  rw [placeLimitLoop_fail_step (by norm_num [is_price_better_or_equal, calculate_limit_price, pyRoundTo,
      pyRoundInt, ORDER_TYPE_BUY_LIMIT, ORDER_TYPE_SELL_LIMIT,
      decide_eq_false_iff_not, decide_eq_true_eq])]
  simp only [show m + 21 = m + 20 + 1 from rfl]
  rw [placeLimitLoop_fail_step (by norm_num [is_price_better_or_equal, calculate_limit_price, pyRoundTo,
      pyRoundInt, ORDER_TYPE_BUY_LIMIT, ORDER_TYPE_SELL_LIMIT,
      decide_eq_false_iff_not, decide_eq_true_eq])]
  simp only [show m + 20 = m + 19 + 1 from rfl]
  rw [placeLimitLoop_fail_step (by norm_num [is_price_better_or_equal, calculate_limit_price, pyRoundTo,
      pyRoundInt, ORDER_TYPE_BUY_LIMIT, ORDER_TYPE_SELL_LIMIT,
      decide_eq_false_iff_not, decide_eq_true_eq])]
  simp only [show m + 19 = m + 18 + 1 from rfl]
  rw [placeLimitLoop_fail_step (by norm_num [is_price_better_or_equal, calculate_limit_price, pyRoundTo,
      pyRoundInt, ORDER_TYPE_BUY_LIMIT, ORDER_TYPE_SELL_LIMIT,
      decide_eq_false_iff_not, decide_eq_true_eq])]
  simp only [show m + 18 = m + 17 + 1 from rfl]
  rw [placeLimitLoop_fail_step (by norm_num [is_price_better_or_equal, calculate_limit_price, pyRoundTo,
      pyRoundInt, ORDER_TYPE_BUY_LIMIT, ORDER_TYPE_SELL_LIMIT,
      decide_eq_false_iff_not, decide_eq_true_eq])]
  simp only [show m + 17 = m + 16 + 1 from rfl]
  rw [placeLimitLoop_fail_step (by norm_num [is_price_better_or_equal, calculate_limit_price, pyRoundTo,
      pyRoundInt, ORDER_TYPE_BUY_LIMIT, ORDER_TYPE_SELL_LIMIT,
      decide_eq_false_iff_not, decide_eq_true_eq])]
  simp only [show m + 16 = m + 15 + 1 from rfl]
  rw [placeLimitLoop_fail_step (by norm_num [is_price_better_or_equal, calculate_limit_price, pyRoundTo,
      pyRoundInt, ORDER_TYPE_BUY_LIMIT, ORDER_TYPE_SELL_LIMIT,
      decide_eq_false_iff_not, decide_eq_true_eq])]
  simp only [show m + 15 = m + 14 + 1 from rfl]
  rw [placeLimitLoop_fail_step (by norm_num [is_price_better_or_equal, calculate_limit_price, pyRoundTo,
      pyRoundInt, ORDER_TYPE_BUY_LIMIT, ORDER_TYPE_SELL_LIMIT,
      decide_eq_false_iff_not, decide_eq_true_eq])]
  simp only [show m + 14 = m + 13 + 1 from rfl]
  rw [placeLimitLoop_fail_step (by norm_num [is_price_better_or_equal, calculate_limit_price, pyRoundTo,
      pyRoundInt, ORDER_TYPE_BUY_LIMIT, ORDER_TYPE_SELL_LIMIT,
      decide_eq_false_iff_not, decide_eq_true_eq])]
  simp only [show m + 13 = m + 12 + 1 from rfl]
  rw [placeLimitLoop_fail_step (by norm_num [is_price_better_or_equal, calculate_limit_price, pyRoundTo,
      pyRoundInt, ORDER_TYPE_BUY_LIMIT, ORDER_TYPE_SELL_LIMIT,
      decide_eq_false_iff_not, decide_eq_true_eq])]
  simp only [show m + 12 = m + 11 + 1 from rfl]
  rw [placeLimitLoop_fail_step (by norm_num [is_price_better_or_equal, calculate_limit_price, pyRoundTo,
      pyRoundInt, ORDER_TYPE_BUY_LIMIT, ORDER_TYPE_SELL_LIMIT,
      decide_eq_false_iff_not, decide_eq_true_eq])]
  simp only [show m + 11 = m + 10 + 1 from rfl]
  rw [placeLimitLoop_fail_step (by norm_num [is_price_better_or_equal, calculate_limit_price, pyRoundTo,
      pyRoundInt, ORDER_TYPE_BUY_LIMIT, ORDER_TYPE_SELL_LIMIT,
      decide_eq_false_iff_not, decide_eq_true_eq])]
  simp only [show m + 10 = m + 9 + 1 from rfl]
  rw [placeLimitLoop_fail_step (by norm_num [is_price_better_or_equal, calculate_limit_price, pyRoundTo,
      pyRoundInt, ORDER_TYPE_BUY_LIMIT, ORDER_TYPE_SELL_LIMIT,
      decide_eq_false_iff_not, decide_eq_true_eq])]
  simp only [show m + 9 = m + 8 + 1 from rfl]
  rw [placeLimitLoop_fail_step (by norm_num [is_price_better_or_equal, calculate_limit_price, pyRoundTo,
      pyRoundInt, ORDER_TYPE_BUY_LIMIT, ORDER_TYPE_SELL_LIMIT,
      decide_eq_false_iff_not, decide_eq_true_eq])]
  simp only [show m + 8 = m + 7 + 1 from rfl]
  rw [placeLimitLoop_fail_step (by norm_num [is_price_better_or_equal, calculate_limit_price, pyRoundTo,
      pyRoundInt, ORDER_TYPE_BUY_LIMIT, ORDER_TYPE_SELL_LIMIT,
      decide_eq_false_iff_not, decide_eq_true_eq])]
  simp only [show m + 7 = m + 6 + 1 from rfl]
  rw [placeLimitLoop_fail_step (by norm_num [is_price_better_or_equal, calculate_limit_price, pyRoundTo,
      pyRoundInt, ORDER_TYPE_BUY_LIMIT, ORDER_TYPE_SELL_LIMIT,
      decide_eq_false_iff_not, decide_eq_true_eq])]
  simp only [show m + 6 = m + 5 + 1 from rfl]
  rw [placeLimitLoop_fail_step (by norm_num [is_price_better_or_equal, calculate_limit_price, pyRoundTo,
      pyRoundInt, ORDER_TYPE_BUY_LIMIT, ORDER_TYPE_SELL_LIMIT,
      decide_eq_false_iff_not, decide_eq_true_eq])]
  simp only [show m + 5 = m + 4 + 1 from rfl]
  rw [placeLimitLoop_fail_step (by norm_num [is_price_better_or_equal, calculate_limit_price, pyRoundTo,
      pyRoundInt, ORDER_TYPE_BUY_LIMIT, ORDER_TYPE_SELL_LIMIT,
      decide_eq_false_iff_not, decide_eq_true_eq])]
  simp only [show m + 4 = m + 3 + 1 from rfl]
  rw [placeLimitLoop_fail_step (by norm_num [is_price_better_or_equal, calculate_limit_price, pyRoundTo,
      pyRoundInt, ORDER_TYPE_BUY_LIMIT, ORDER_TYPE_SELL_LIMIT,
      decide_eq_false_iff_not, decide_eq_true_eq])]
  simp only [show m + 3 = m + 2 + 1 from rfl]
  rw [placeLimitLoop_fail_step (by norm_num [is_price_better_or_equal, calculate_limit_price, pyRoundTo,
      pyRoundInt, ORDER_TYPE_BUY_LIMIT, ORDER_TYPE_SELL_LIMIT,
      decide_eq_false_iff_not, decide_eq_true_eq])]
  simp only [show m + 2 = m + 1 + 1 from rfl]
  rw [placeLimitLoop_fail_step (by norm_num [is_price_better_or_equal, calculate_limit_price, pyRoundTo,
      pyRoundInt, ORDER_TYPE_BUY_LIMIT, ORDER_TYPE_SELL_LIMIT,
      decide_eq_false_iff_not, decide_eq_true_eq])]
  rw [placeLimitLoop_accept_step
    ({ retcode := 10009, order := some 77 } : SubmitResult)
    (by norm_num [is_price_better_or_equal, calculate_limit_price, pyRoundTo,
      pyRoundInt, ORDER_TYPE_BUY_LIMIT, ORDER_TYPE_SELL_LIMIT,
      decide_eq_false_iff_not, decide_eq_true_eq]) rfl rfl]
  norm_num [c4req, c4cfg, slTpField, calculate_limit_price, pyRoundTo, pyRoundInt,
    ORDER_TYPE_BUY_LIMIT, TRADE_ACTION_PENDING]

/-- Witness for C4_limit_happy_path at exactly 24 attempts. -/
theorem C4_limit_happy_path_witness :
    placeLimitLoop c4cfg c4broker "EURUSD" ORDER_TYPE_BUY_LIMIT (1/100) (110000/100000)
      (110025/100000) (110020/100000) (110025/100000) 5 (1/100000) none none none
      24 (2 * (1/100000)) = (some 77, [Action.submit c4req]) ∧
    c4req.price = min (110025/100000 - 2/100000 : ℚ) (110000/100000) :=
  C4_limit_happy_path 24 (le_refl 24)

/-- The lot-sizing call never binds: min_lot is not a parameter of
calculate_lot_size. -/
theorem lot_call_kwargs_do_not_bind :
    pyKwargsBindOk calculate_lot_size_params calculate_lot_size_required lot_call_kwargs
      = false := by
  decide

/-- Every lot-sizing call in order_manager.py raises TypeError. -/
theorem callCalculateLotSize_raises (donor_lot : ℚ) (mode : String) (value : Option ℚ)
    (donor_balance client_balance : ℚ) :
    callCalculateLotSize donor_lot mode value donor_balance client_balance
      = .error .typeError := by
  unfold callCalculateLotSize
  rw [lot_call_kwargs_do_not_bind]
  simp

/-- Claim C1: every call to place_limit_order, place_market_order or
place_pending_order that reaches the lot-sizing step (the symbol check
succeeds, and for the two price-reading methods the tick fetch
succeeds) raises TypeError, because the call passes the keyword
arguments min_lot and max_lot which the signature of
calculate_lot_size does not accept; the error is raised before any
request reaches the broker, so no such order is ever submitted. -/
theorem C1_lot_call_type_error (cfg : Config) (b : Broker) (symbol : String)
    (order_type : ℤ) (volume original_price price : ℚ)
    (donor_balance client_balance : Option ℚ) (magic : Option ℤ) (sl tp : Option ℚ)
    (hs : (b.symbolCheck symbol).isSome = true) (ht : (b.tick symbol).isSome = true) :
    place_limit_order cfg b symbol order_type volume original_price donor_balance
      client_balance magic sl tp = .error .typeError ∧
    place_market_order cfg b symbol order_type volume donor_balance client_balance
      magic sl tp = .error .typeError ∧
    place_pending_order cfg b symbol order_type volume price donor_balance
      client_balance magic sl tp = .error .typeError := by
  obtain ⟨sd, hsd⟩ := Option.isSome_iff_exists.mp hs
  obtain ⟨tk, htk⟩ := Option.isSome_iff_exists.mp ht
  refine ⟨?_, ?_, ?_⟩
  · simp [place_limit_order, hsd, htk, callCalculateLotSize_raises]
  · simp [place_market_order, hsd, htk, callCalculateLotSize_raises]
  · simp [place_pending_order, hsd, callCalculateLotSize_raises]

/-- Broker of the C1 witness: symbol check and tick always succeed. -/
def c1broker : Broker :=
  { symbolCheck := fun _ => some {}
    tick := fun _ => some { bid := 1, ask := 1 } }

/-- Witness for C1_lot_call_type_error at a concrete broker and
arguments. -/
theorem C1_lot_call_type_error_witness :
    place_limit_order { lot_config := { mode := "fixed" }, order_config := {} } c1broker
      "EURUSD" ORDER_TYPE_BUY_LIMIT 1 1 none none none none none = .error .typeError ∧
    place_market_order { lot_config := { mode := "fixed" }, order_config := {} } c1broker
      "EURUSD" ORDER_TYPE_BUY_LIMIT 1 none none none none none = .error .typeError ∧
    place_pending_order { lot_config := { mode := "fixed" }, order_config := {} } c1broker
      "EURUSD" ORDER_TYPE_BUY_LIMIT 1 1 none none none none none = .error .typeError :=
  C1_lot_call_type_error { lot_config := { mode := "fixed" }, order_config := {} } c1broker
    "EURUSD" ORDER_TYPE_BUY_LIMIT 1 1 1 none none none none none rfl rfl

/-- Configuration of the C2 scenario: market copy style. -/
def c2cfg : Config :=
  { lot_config := { mode := "fixed", value := some (1/100) }
    order_config := {}
    copy_style := "by_market" }

/-- The new donor position of the C2 scenario. -/
def c2donorPos : PositionInfo :=
  { ticket := 5, symbol := "EURUSD", ptype := 0, volume := 1/10,
    price_open := 11/10, time := 100 }

/-- The live client position of the C2 scenario, which the worker-level
symbol lookup can see. -/
def c2clientPos : PositionInfo :=
  { ticket := 60, symbol := "EURUSD", ptype := 0, volume := 1/100,
    price_open := 11/10, time := 105 }

/-- Broker of the C2 scenario: the symbol is available, ticks flow, and
every submission succeeds with deal 61. -/
def c2broker : Broker :=
  { donorPositions := [c2donorPos]
    clientPositions := [c2clientPos]
    symbolCheck := fun _ => some {}
    tick := fun _ => some { bid := 11/10, ask := 110005/100000 }
    submit := fun _ => some { retcode := 10009, order := some 61, deal := some 61 } }

/-- Claim C2, failing run: processing a new donor position in market
style never inserts the donor-to-client pair into the map.  The run
aborts with the TypeError of the lot-sizing call before any market
order is submitted; and even past that point the position lookup used
afterwards, OrderManager.get_position_by_symbol, unconditionally
returns None (its lookup block is unreachable dead code behind a guard
that already returned), although the worker-level lookup would have
found the client position. -/
theorem C2_market_link_code_bug :
    processNewPositions c2cfg c2broker {} = .error .typeError ∧
    get_position_by_symbol c2broker "EURUSD" = none ∧
    getClientPositionBySymbol c2broker "EURUSD" = some c2clientPos := by
  refine ⟨?_, rfl, ?_⟩
  · simp [processNewPositions, pnpBody, foldPhase, c2cfg, c2broker, c2donorPos,
      dictGet, place_market_order, callCalculateLotSize_raises, truthyNat,
      POSITION_TYPE_BUY]
  · simp [getClientPositionBySymbol, c2broker, c2clientPos, List.find?]

/-- State of the C6 counterexample: donor ticket 1 is tracked and
linked to client ticket 50; nothing else is in flight. -/
def c6state : CopierState :=
  { client_positions := [(1, 50)], tracked := [1] }

/-- Configuration of the C6 counterexample. -/
def c6cfg : Config :=
  { lot_config := { mode := "fixed" }, order_config := {} }

/-- Claim C6, counterexample: a mutation of the correspondence map that
is not followed by a state-file write.  Donor position 1 has closed and
its client position 50 is already gone, so process_closed_positions
deletes the link from client_positions and moves on without emitting
any save (the broker snapshot is empty, c6state holds the link). -/
theorem C6_persistence_counterexample :
    processClosedPositions c6cfg {} c6state = .ok ({}, []) ∧
    ({} : CopierState).client_positions = [] ∧
    c6state.client_positions ≠ [] := by
  refine ⟨?_, rfl, ?_⟩
  · simp [processClosedPositions, pcpBody, foldPhase, c6state, c6cfg, dictGet,
      dictHas, dictDel, truthyNat, getClientPositionByTicket, List.find?]
  · simp [c6state]

/-- Two copier states agree on the six relations of the correspondence
map. -/
def SameMaps (a c : CopierState) : Prop :=
  a.client_positions = c.client_positions ∧
  a.pending_orders = c.pending_orders ∧
  a.pending_close_orders = c.pending_close_orders ∧
  a.pending_close_orders_info = c.pending_close_orders_info ∧
  a.close_order_to_client_position = c.close_order_to_client_position ∧
  a.donor_pending_orders = c.donor_pending_orders

theorem SameMaps.refl (a : CopierState) : SameMaps a a :=
  ⟨rfl, rfl, rfl, rfl, rfl, rfl⟩

theorem SameMaps.trans {a c d : CopierState} (h1 : SameMaps a c) (h2 : SameMaps c d) :
    SameMaps a d :=
  ⟨h1.1.trans h2.1, h1.2.1.trans h2.2.1, h1.2.2.1.trans h2.2.2.1,
   h1.2.2.2.1.trans h2.2.2.2.1, h1.2.2.2.2.1.trans h2.2.2.2.2.1,
   h1.2.2.2.2.2.trans h2.2.2.2.2.2⟩

/-- One close-by sweep step never mutates the correspondence map. -/
theorem cpcoStep_preserves_maps (cfg : Config) (b : Broker)
    (acc : CopierState × Act × List ℕ) (kv : ℕ × ℕ) :
    SameMaps (cpcoStep cfg b acc kv).1 acc.1 := by
  obtain ⟨st, acts, closed⟩ := acc
  unfold SameMaps cpcoStep
  refine ⟨?_, ?_, ?_, ?_, ?_, ?_⟩ <;> (repeat' split) <;> (try simp_all) <;>
    (repeat' split) <;> simp_all

/-- The whole close-by sweep never mutates the correspondence map. -/
theorem cpcoFold_preserves_maps (cfg : Config) (b : Broker) (l : List (ℕ × ℕ)) :
    ∀ acc : CopierState × Act × List ℕ,
      SameMaps (l.foldl (cpcoStep cfg b) acc).1 acc.1 := by
  induction l with
  | nil => intro acc; exact SameMaps.refl _
  | cons kv rest ih =>
    intro acc
    rw [List.foldl_cons]
    exact (ih (cpcoStep cfg b acc kv)).trans (cpcoStep_preserves_maps cfg b acc kv)

/-- Claim C6 (amended): in check_pending_close_orders every mutation of
the correspondence map is concentrated in the cleanup of completed
entries and is followed by a state-file save in the same call; other
phases do contain unmutated-unsaved paths (see the counterexample). -/
theorem C6_persistence_amended (cfg : Config) (b : Broker) (st : CopierState)
    (hmut : ¬ SameMaps (checkPendingCloseOrders cfg b st).1 st) :
    Action.save ∈ (checkPendingCloseOrders cfg b st).2 := by
  unfold checkPendingCloseOrders at hmut ⊢
  have hfold := cpcoFold_preserves_maps cfg b st.pending_close_orders (st, [], [])
  rcases hr : st.pending_close_orders.foldl (cpcoStep cfg b) (st, [], []) with ⟨st1, acts, closed⟩
  rw [hr] at hfold
  simp only [hr]
  cases closed with
  | nil =>
    exfalso
    apply hmut
    simp only [hr, cpcoCleanup]
    exact hfold
  | cons c0 crest =>
    simp [cpcoCleanup, save_sync_state]

/-- Close-order metadata of the C6 witness. -/
def c6winfo : CloseInfo :=
  { donor_ticket := 1, symbol := "EURUSD", order_type := 3,
    original_close_price := 1, client_ticket := 50 }

/-- State of the C6 witness: one in-flight close order whose client
order and client position have both vanished, so the sweep completes
the entry and the cleanup mutates the map. -/
def c6wstate : CopierState :=
  { client_positions := [(1, 50)]
    pending_close_orders := [(1, 30)]
    pending_close_orders_info := [(30, c6winfo)]
    close_order_to_client_position := [(30, 50)] }

/-- Witness for C6_persistence_amended: the cleanup of the completed
close order mutates the map and a save is emitted. -/
theorem C6_persistence_amended_witness :
    Action.save ∈ (checkPendingCloseOrders c6cfg {} c6wstate).2 :=
  C6_persistence_amended c6cfg {} c6wstate (by
    intro h
    have h1 := h.1
    simp [checkPendingCloseOrders, cpcoStep, cpcoCleanup, c6wstate, c6winfo, dictGet,
      dictHas, dictDel, truthyNat, getClientOrderByTicket, getClientPositionByTicket,
      List.find?, save_sync_state] at h1)

/-- Sequencing after a silent successful phase is the next phase. -/
theorem pseq_ok_nil (st : CopierState) (f : CopierState → PhaseResult) :
    pseq (.ok (st, [])) f = f st := by
  unfold pseq
  rcases hf : f st with e | ⟨st2, as2⟩ <;> simp [hf]

/-- Sequencing two successful phases concatenates their traces. -/
theorem pseq_ok_ok (st st2 : CopierState) (as as2 : Act) (f : CopierState → PhaseResult)
    (hf : f st = .ok (st2, as2)) :
    pseq (.ok (st, as)) f = .ok (st2, as ++ as2) := by
  unfold pseq
  simp [hf]

/-- When every live donor position is already tracked, the new-position
phase does nothing. -/
theorem processNewPositions_of_all_tracked (cfg : Config) (b : Broker) (st : CopierState)
    (h : ∀ p ∈ b.donorPositions, p.ticket ∈ st.tracked) :
    processNewPositions cfg b st = .ok (st, []) := by
  have hnew : b.donorPositions.filter (fun p => !(st.tracked.contains p.ticket)) = [] := by
    rw [List.filter_eq_nil_iff]
    intro p hp
    simpa using h p hp
  unfold processNewPositions
  rw [hnew]
  simp [foldPhase]

/-- When every tracked ticket is still live on the donor, the
closed-position phase does nothing. -/
theorem processClosedPositions_of_all_live (cfg : Config) (b : Broker) (st : CopierState)
    (h : ∀ t ∈ st.tracked, t ∈ b.donorPositions.map (fun p => p.ticket)) :
    processClosedPositions cfg b st = .ok (st, []) := by
  have hclosed : st.tracked.filter
      (fun t => !((b.donorPositions.map (fun p => p.ticket)).contains t)) = [] := by
    rw [List.filter_eq_nil_iff]
    intro t ht
    simpa using h t ht
  have hkeep : st.tracked.filter
      (fun t => (b.donorPositions.map (fun p => p.ticket)).contains t) = st.tracked := by
    rw [List.filter_eq_self]
    intro t ht
    simpa using h t ht
  simp only [processClosedPositions]
  rw [hclosed, hkeep]
  simp [foldPhase]

/-- With no in-flight opening or closing orders the walker phase does
nothing. -/
theorem optimizePendingOrders_empty (cfg : Config) (b : Broker) (st : CopierState)
    (hpo : st.pending_orders = []) (hpci : st.pending_close_orders_info = []) :
    optimizePendingOrders cfg b st = .ok (st, []) := by
  unfold optimizePendingOrders
  rw [hpo]
  simp only [foldPhase, pseq_ok_nil]
  rw [hpci]
  rfl

/-- With no in-flight opening orders the fill check does nothing. -/
theorem checkPendingOrderFills_empty (cfg : Config) (b : Broker) (st : CopierState)
    (hpo : st.pending_orders = []) :
    checkPendingOrderFills cfg b st = .ok (st, []) := by
  unfold checkPendingOrderFills
  rw [hpo]
  simp [foldPhase]

/-- With no in-flight close orders the close-by protocol does nothing. -/
theorem checkPendingCloseOrders_empty (cfg : Config) (b : Broker) (st : CopierState)
    (hpc : st.pending_close_orders = []) :
    checkPendingCloseOrders cfg b st = (st, []) := by
  unfold checkPendingCloseOrders
  rw [hpc]
  simp [cpcoCleanup]

/-- When every live donor pending order is already mirrored, the
order-mirroring phase does nothing. -/
theorem processNewOrders_all_known (cfg : Config) (b : Broker) (st : CopierState)
    (h : ∀ o ∈ b.donorOrders, dictHas st.donor_pending_orders o.ticket = true) :
    processNewOrders cfg b st = .ok (st, []) := by
  have hnew : b.donorOrders.filter (fun o => !(dictHas st.donor_pending_orders o.ticket))
      = [] := by
    rw [List.filter_eq_nil_iff]
    intro o ho
    simp [h o ho]
  unfold processNewOrders
  rw [hnew]
  simp [foldPhase]

/-- When every mirrored donor order is still live on the donor, the
closed-order phase does nothing. -/
theorem processClosedOrders_all_live (cfg : Config) (b : Broker) (st : CopierState)
    (h : ∀ k ∈ dictKeys st.donor_pending_orders,
      b.donorOrders.any (fun o => o.ticket == k) = true) :
    processClosedOrders cfg b st = .ok (st, []) := by
  have hclosed : (dictKeys st.donor_pending_orders).filter
      (fun t => !(b.donorOrders.any (fun o => o.ticket == t))) = [] := by
    rw [List.filter_eq_nil_iff]
    intro t ht
    simp [h t ht]
  unfold processClosedOrders
  rw [hclosed]
  simp [foldPhase]

/-- Claim C3 (amended): one reconciliation cycle against unchanged
broker state issues no actions at all, provided the restored state
tracks exactly the live donor positions, holds no in-flight opening or
closing orders, and (when pending-order mirroring is enabled) mirrors
exactly the live donor pending orders.  Without the no-in-flight-order
proviso the cycle may still issue price-walk modifications (see the
counterexample). -/
theorem C3_idempotence_amended (cfg : Config) (st : CopierState) (b : Broker)
    (hpo : st.pending_orders = [])
    (hpc : st.pending_close_orders = [])
    (hpci : st.pending_close_orders_info = [])
    (htr1 : ∀ p ∈ b.donorPositions, p.ticket ∈ st.tracked)
    (htr2 : ∀ t ∈ st.tracked, t ∈ b.donorPositions.map (fun p => p.ticket))
    (hdo1 : ∀ o ∈ b.donorOrders, dictHas st.donor_pending_orders o.ticket = true)
    (hdo2 : ∀ k ∈ dictKeys st.donor_pending_orders,
      b.donorOrders.any (fun o => o.ticket == k) = true) :
    ∃ st2, runCycle cfg st b = .ok (st2, []) := by
  refine ⟨(monitorPositionChanges b st).1, ?_⟩
  unfold runCycle
  rw [processNewPositions_of_all_tracked cfg b st htr1, pseq_ok_nil]
  by_cases hcp : cfg.order_config.copy_pending_orders = true
  · rw [if_pos hcp, processNewOrders_all_known cfg b st hdo1, pseq_ok_nil,
      processClosedOrders_all_live cfg b st hdo2, pseq_ok_nil,
      optimizePendingOrders_empty cfg b st hpo hpci, pseq_ok_nil,
      checkPendingOrderFills_empty cfg b st hpo, pseq_ok_nil,
      processClosedPositions_of_all_live cfg b st htr2, pseq_ok_nil,
      checkPendingCloseOrders_empty cfg b st hpc, pseq_ok_nil]
    rfl
  · rw [if_neg hcp, pseq_ok_nil,
      optimizePendingOrders_empty cfg b st hpo hpci, pseq_ok_nil,
      checkPendingOrderFills_empty cfg b st hpo, pseq_ok_nil,
      processClosedPositions_of_all_live cfg b st htr2, pseq_ok_nil,
      checkPendingCloseOrders_empty cfg b st hpc, pseq_ok_nil]
    rfl

/-- Witness for C3_idempotence_amended: the empty state against the
empty broker. -/
theorem C3_idempotence_amended_witness :
    ∃ st2, runCycle { lot_config := { mode := "fixed" }, order_config := {} } {} {}
      = .ok (st2, []) :=
  C3_idempotence_amended { lot_config := { mode := "fixed" }, order_config := {} } {} {}
    rfl rfl rfl (by intro p hp; cases hp) (by intro t ht; cases ht)
    (by intro o ho; cases ho) (by intro k hk; cases hk)

/-- Configuration of the C3 counterexample (the repo app defaults:
limit style, fixed lot 0.01, 50 retries, walking toward the original
price). -/
def c3cfg : Config :=
  { lot_config := { mode := "fixed", value := some (1/100) }
    order_config := { max_retries := 50, magic := 777777 } }

/-- The live donor position of the C3 counterexample. -/
def c3donorPos : PositionInfo :=
  { ticket := 1, symbol := "EURUSD", ptype := 0, volume := 1/10,
    price_open := 109980/100000, time := 1000 }

/-- The live client opening limit order of the C3 counterexample. -/
def c3order : OrderData :=
  { ticket := 10, symbol := "EURUSD", otype := 2, price_open := 109950/100000,
    time_setup := 1000 }

/-- Broker snapshot of the C3 counterexample, unchanged between the
persistence and the cycle. -/
def c3broker : Broker :=
  { donorPositions := [c3donorPos]
    clientPositions := []
    clientOrders := [c3order]
    symbolCheck := fun s => if s == "EURUSD" then some {} else none
    tick := fun s => if s == "EURUSD" then
      some { bid := 110000/100000, ask := 110005/100000 } else none
    submit := fun _ => some { retcode := 10009, order := some 99, deal := some 99 }
    nowTime := 2000 }

/-- The persisted pending-order entry of the C3 counterexample. -/
def c3info : PendingInfo :=
  { donor_ticket := 1, symbol := "EURUSD", order_type := 2,
    original_price := 109980/100000 }

/-- The persisted state file of the C3 counterexample: the single
in-flight opening order. -/
def c3saved : SavedState := { pending_orders := [(10, c3info)] }

/-- The state after reloading and validating the persisted map. -/
def c3restored : CopierState :=
  { pending_orders := [(10, c3info)]
    tracked := [1]
    donor_states := [(1, c3donorPos)]
    client_states := []
    donor_balance := 1000
    client_balance := 1000 }

/-- The price-walk modification issued by the cycle of the C3
counterexample. -/
def c3modReq : TradeRequest :=
  { action := TRADE_ACTION_MODIFY
    order := some 10
    symbol := "EURUSD"
    price := 109951/100000
    deviation := 20 }

/-- Reloading the persisted map of the C3 counterexample validates the
pending order (its client order is live) and restores it without
running the matcher. -/
theorem c3_load_eval :
    load_and_restore_sync_state c3cfg c3broker (some c3saved)
      (initializeState c3broker 1000 1000) = (c3restored, [Action.save]) := by
  norm_num [load_and_restore_sync_state, validate_and_merge_state, validateClientPositions,
    initializeState, dictUpdate, dictSet, dictGet, dictHas, getClientOrderByTicket,
    c3saved, c3broker, c3order, c3donorPos, c3restored, c3info, save_sync_state,
    List.find?]

/-- The walker phase of the C3 cycle submits one modification, moving
the order one point from 1.09950 toward the original 1.09980. -/
theorem c3_optimize_eval :
    optimizePendingOrders c3cfg c3broker c3restored
      = .ok (c3restored, [Action.submit c3modReq]) := by
  norm_num [optimizePendingOrders, foldPhase, opoOpenBody, opoCloseBody, pseq,
    c3restored, c3info, c3broker, c3order, c3modReq, c3cfg, getClientOrderByTicket,
    List.find?, optimize_order_price, buyLimitOneStep, ORDER_TYPE_BUY_LIMIT,
    TRADE_ACTION_MODIFY, TRADE_RETCODE_DONE, abs_lt, abs_of_pos]

/-- The fill check of the C3 cycle sees the order still live and does
nothing. -/
theorem c3_fills_eval :
    checkPendingOrderFills c3cfg c3broker c3restored = .ok (c3restored, []) := by
  norm_num [checkPendingOrderFills, foldPhase, cpofBody, c3restored, c3info, c3broker,
    c3order, getClientOrderByTicket, List.find?]

/-- Claim C3, counterexample: reloading the persisted map and running
one reconciliation cycle against the unchanged broker state issues a
trading action: the pending-order walker modifies the restored limit
order one point toward its original price. -/
theorem C3_idempotence_counterexample :
    (load_and_restore_sync_state c3cfg c3broker (some c3saved)
        (initializeState c3broker 1000 1000)).1 = c3restored ∧
    (runCycle c3cfg c3restored c3broker).toOption.map
        (fun r => r.2.filter Action.isTradeAction) = some [Action.submit c3modReq] ∧
    c3modReq.action = TRADE_ACTION_MODIFY := by
  refine ⟨by rw [c3_load_eval], ?_, rfl⟩
  have h1 : processNewPositions c3cfg c3broker c3restored = .ok (c3restored, []) := by
    apply processNewPositions_of_all_tracked
    intro p hp
    simp only [c3broker, List.mem_singleton] at hp
    simp [hp, c3donorPos, c3restored]
  have h4 : processClosedPositions c3cfg c3broker c3restored = .ok (c3restored, []) := by
    apply processClosedPositions_of_all_live
    intro t ht
    simp only [c3restored, List.mem_singleton] at ht
    simp [ht, c3broker, c3donorPos]
  have h5 : checkPendingCloseOrders c3cfg c3broker c3restored = (c3restored, []) :=
    checkPendingCloseOrders_empty c3cfg c3broker c3restored rfl
  have hcp : c3cfg.order_config.copy_pending_orders = false := rfl
  simp only [runCycle, pseq, hcp, Bool.false_eq_true, if_false, h1, c3_optimize_eval,
    c3_fills_eval, h4, h5, monitorPositionChanges]
  simp [Action.isTradeAction, Except.toOption]

end FXCopier
